import Mathlib

/-!
Verification of the Vulkan GS backend state-management core (GSDeviceVK /
GSTextureVK) of the pcsx2 fork.  The definitions below are a shallow
embedding, translated function-by-function from
pcsx2/GS/Renderers/Vulkan/GSDeviceVK.cpp and GSDeviceVK.h.  Vulkan object
handles are modelled as natural numbers with 0 standing for VK_NULL_HANDLE;
the command stream recorded into the current command buffer is modelled as an
explicit list of commands; collaborator objects that live outside the
repository (Vulkan::Context descriptor pools, Vulkan::StreamBuffer) are
modelled as oracles: a list of boolean outcomes consumed by each allocation
attempt, as specified for them in the design document.
-/

namespace GSVK

/-- Vulkan object handle; 0 plays the role of VK_NULL_HANDLE. -/
abbrev Handle := Nat

/-! ## PipelineSelector and the TFX pipeline cache (GSDeviceVK.h 329-369,
GSDeviceVK.cpp 1534-1543) -/

/-- Bit-packed pipeline selector.  Each field holds the raw `key` word of the
corresponding sub-selector (`vs.key`, `gs.key`, `ps.key`, `dss.key`,
`bs.key`) plus the topology/rt/ds word `key`, exactly the six words that
`PipelineSelector::operator==` compares. -/
structure PipelineSelector where
  vs : Nat
  gs : Nat
  ps : Nat
  dss : Nat
  bs : Nat
  key : Nat
deriving DecidableEq, Repr

/-- Embedding of `PipelineSelector::operator==`: raw bit-pattern comparison of
the six selector words (GSDeviceVK.h 349-352). -/
def PipelineSelector.eqOp (a b : PipelineSelector) : Bool :=
  a.vs == b.vs && a.gs == b.gs && a.ps == b.ps && a.dss == b.dss && a.bs == b.bs && a.key == b.key

/-- State of the `m_tfx_pipelines` cache together with a log of every
invocation of `CreateTFXPipeline` (so that "compile at most once per
selector" can be stated). -/
structure TFXPipelineCache where
  cache : List (PipelineSelector × Handle)
  createCalls : List PipelineSelector
deriving Repr

def emptyTFXPipelineCache : TFXPipelineCache := ⟨[], []⟩

/-- Lookup in `m_tfx_pipelines`, using the raw-bit-pattern comparison of
`PipelineSelector::operator==`. -/
def findPipeline : List (PipelineSelector × Handle) → PipelineSelector → Option Handle
  | [], _ => none
  | (q, h) :: rest, p => if PipelineSelector.eqOp q p then some h else findPipeline rest p

/-- Embedding of `GSDeviceVK::GetTFXPipeline` (GSDeviceVK.cpp 1534-1543):
cache hit returns the stored handle; on a miss `CreateTFXPipeline` (the
`create` environment function, deterministic in the selector, 0 = creation
failure) is invoked and the result is emplaced unconditionally - the null
handle too. -/
def GetTFXPipeline (create : PipelineSelector → Handle) (s : TFXPipelineCache)
    (p : PipelineSelector) : Handle × TFXPipelineCache :=
  match findPipeline s.cache p with
  | some h => (h, s)
  | none =>
    let pipeline := create p
    (pipeline, { cache := (p, pipeline) :: s.cache, createCalls := p :: s.createCalls })

/-- Run a sequence of `GetTFXPipeline` requests. -/
def runGets (create : PipelineSelector → Handle) : List PipelineSelector → TFXPipelineCache →
    TFXPipelineCache
  | [], s => s
  | p :: rest, s => runGets create rest (GetTFXPipeline create s p).2

/-- Number of `CreateTFXPipeline` invocations recorded for a given selector. -/
def countSel (p : PipelineSelector) : List PipelineSelector → Nat
  | [] => 0
  | q :: rest => (if q = p then 1 else 0) + countSel p rest

/-- Invariant of the pipeline cache: every cached entry stores exactly what
`CreateTFXPipeline` returns for its key, and a selector that is not yet
cached has never been compiled while a cached one has been compiled at most
once. -/
def CacheInv (create : PipelineSelector → Handle) (s : TFXPipelineCache) : Prop :=
  (∀ e ∈ s.cache, e.2 = create e.1) ∧
  (∀ q, countSel q s.createCalls ≤ 1 ∧
    (findPipeline s.cache q = none → countSel q s.createCalls = 0))

/-! ## Geometry-stage selector and its necessity predicate
(GSDeviceVK.h 162-197, GSDeviceVK.cpp 1458-1464, 1477-1480) -/

/-- Geometry-stage selector bit-fields (GSDeviceVK.h 162-178): `iip` (1 bit),
`prim` (2 bits), `point` (1 bit), `line` (1 bit), `cpu_sprite` (1 bit). -/
structure GSSelector where
  iip : Nat
  prim : Nat
  point : Nat
  line : Nat
  cpu_sprite : Nat
deriving DecidableEq, Repr

/-- Embedding of `GSSelector::IsNeeded` (GSDeviceVK.h 191-196):
geometry shader disabled if sprite conversion is done on the cpu;
needed when `(prim > 0 && cpu_sprite == 0 && (iip == 0 || prim == 3))` or
when point/line unscaled expansion is requested. -/
def GSSelector.IsNeeded (s : GSSelector) : Bool :=
  let unscale_pt_ln := s.point == 1 || s.line == 1
  (decide (0 < s.prim) && s.cpu_sprite == 0 && (s.iip == 0 || s.prim == 3)) || unscale_pt_ln

/-- Modelled from the spec: the geometry-shader necessity predicate as worded
in the specification (section 4.4) - needed when (primitive-type is a filled
polygon AND flat-shading AND not a triangle-strip-of-3) OR geometry wants
point/line unscaled expansion.  Interpretation of the spec words over the
selector bit-fields: a filled polygon is a triangle or sprite primitive
(`prim` is 2 or 3), flat-shading is `iip = 0`, the excluded
triangle-strip-of-3 case is `prim = 3`, and unscaled point/line expansion is
`point = 1` or `line = 1`. -/
def gsNeededSpec (s : GSSelector) : Bool :=
  ((s.prim == 2 || s.prim == 3) && s.iip == 0 && !(s.prim == 3)) ||
    (s.point == 1 || s.line == 1)

/-- Result of assembling the shader stages of a TFX pipeline: the compiled
modules, with the geometry stage attached only when its module is non-null
(GSDeviceVK.cpp 1477-1480). -/
structure TFXPipelineStages where
  vsModule : Handle
  gsModule : Option Handle
  fsModule : Handle
deriving DecidableEq, Repr

/-- Embedding of the shader-resolution part of `GSDeviceVK::CreateTFXPipeline`
(GSDeviceVK.cpp 1458-1464 and 1477-1480): the geometry shader is retrieved
exactly when `p.gs.IsNeeded()` holds; creation fails (returns none) when the
vertex or fragment module is null, or when the geometry stage is needed but
its module is null; the geometry stage is attached to the pipeline exactly
when the retrieved module is non-null.  `getVS`, `getGS`, `getFS` stand for
the shader-cache retrieval functions (0 = compilation failure). -/
def CreateTFXPipelineStages (getVS : Nat → Handle) (getGS : GSSelector → Handle)
    (getFS : Nat → Handle) (vsSel : Nat) (gsSel : GSSelector) (psSel : Nat) :
    Option TFXPipelineStages :=
  let vs := getVS vsSel
  let gs := if gsSel.IsNeeded then getGS gsSel else 0
  let fs := getFS psSel
  if vs == 0 || (gsSel.IsNeeded && gs == 0) || fs == 0 then none
  else some { vsModule := vs, gsModule := if gs != 0 then some gs else none, fsModule := fs }

/-! ## Device state machine (GSDeviceVK state tracking, GSDeviceVK.h 601-665,
GSDeviceVK.cpp 336-802 and 1624-2035) -/

/-- Integer rectangle (GSVector4i used as left/top/right/bottom). -/
structure GSVector4i where
  left : Int
  top : Int
  right : Int
  bottom : Int
deriving DecidableEq, Repr

def GSVector4i.width (r : GSVector4i) : Int := r.right - r.left

def GSVector4i.height (r : GSVector4i) : Int := r.bottom - r.top

/-- Containment of `inner` within `outer`, the condition checked by
`CheckRenderPass` (GSDeviceVK.cpp 1848-1849). -/
def rectContains (outer inner : GSVector4i) : Bool :=
  !(inner.left < outer.left || inner.top < outer.top ||
    inner.right > outer.right || inner.bottom > outer.bottom)

inductive VkAttachmentLoadOp where
  | load
  | clear
  | dontCare
deriving DecidableEq, Repr

/-- Render-pass handle, identified by its cache key.  The design (section
4.3) makes `Vulkan::Context::GetRenderPass` a pure memoized function of
(color format, depth format, load op), so equal keys give equal handles and
the handle is modelled by the key itself.  `none` is the distinguished
VK_FORMAT_UNDEFINED "no attachment" value. -/
structure VkRenderPassKey where
  colorFormat : Option Nat
  depthFormat : Option Nat
  loadOp : VkAttachmentLoadOp
deriving DecidableEq, Repr

/-- Modelled from the spec: `Vulkan::Context::GetRenderPass` (section 4.3), a
pure function of its three inputs returning the memoized handle. -/
def GetRenderPass (color depth : Option Nat) (op : VkAttachmentLoadOp) : VkRenderPassKey :=
  ⟨color, depth, op⟩

/-- VK_FORMAT_R8G8B8A8_UNORM, the fixed render-target format. -/
def RT_FORMAT : Nat := 37

/-- VK_FORMAT_D32_SFLOAT_S8_UINT, the fixed depth-stencil format. -/
def DEPTH_FORMAT : Nat := 130

/-- The utility render passes created in `CreateRenderPasses`
(GSDeviceVK.cpp 1097-1101). -/
def m_utility_color_render_pass_load : VkRenderPassKey :=
  GetRenderPass (some RT_FORMAT) none .load

def m_utility_color_render_pass_clear : VkRenderPassKey :=
  GetRenderPass (some RT_FORMAT) none .clear

def m_utility_color_render_pass_discard : VkRenderPassKey :=
  GetRenderPass (some RT_FORMAT) none .dontCare

def m_utility_depth_render_pass_load : VkRenderPassKey :=
  GetRenderPass none (some DEPTH_FORMAT) .load

def m_utility_depth_render_pass_discard : VkRenderPassKey :=
  GetRenderPass none (some DEPTH_FORMAT) .dontCare

inductive PipelineLayoutKind where
  | Undefined
  | TFX
  | Utility
deriving DecidableEq, Repr

inductive VkImageLayout where
  | undefined
  | shaderReadOnly
  | colorAttachment
  | depthStencilAttachment
  | transferSrc
  | transferDst
  | present
deriving DecidableEq, Repr

inductive GSTextureType where
  | Texture
  | RenderTarget
  | DepthStencil
  | Offscreen
deriving DecidableEq, Repr

/-- A Vulkan command recorded into the current command buffer, or a
submission boundary. -/
inductive VKCmd where
  | bindVertexBuffers (buffer : Handle) (offset : Nat)
  | bindIndexBuffer (buffer : Handle) (offset : Nat) (indexType : Nat)
  | bindPipeline (pipeline : Handle)
  | setViewport (vp : GSVector4i)
  | setScissor (rc : GSVector4i)
  | setBlendConstants (c : Nat)
  | bindDescriptorSets (layout : PipelineLayoutKind) (sets : List Handle)
      (dynamicOffsets : List Nat)
  | beginRenderPass (rp : VkRenderPassKey) (fb : Handle) (area : GSVector4i)
      (clearValue : Option Nat)
  | endRenderPass
  | submit (waitForCompletion : Bool)
  | imageBarrier (image : Nat) (level : Nat) (oldLayout newLayout : VkImageLayout)
  | copyImageToBuffer (image : Nat) (rc : GSVector4i) (level : Nat)
  | draw
deriving DecidableEq, Repr

/-- Dirty-flag bits, GSDeviceVK.h 602-618. -/
def DIRTY_FLAG_TFX_TEXTURES : Nat := 1

def DIRTY_FLAG_TFX_SAMPLERS : Nat := 2

def DIRTY_FLAG_TFX_DYNAMIC_OFFSETS : Nat := 4

def DIRTY_FLAG_UTILITY_TEXTURE : Nat := 8

def DIRTY_FLAG_BLEND_CONSTANTS : Nat := 16

def DIRTY_FLAG_VERTEX_BUFFER : Nat := 32

def DIRTY_FLAG_INDEX_BUFFER : Nat := 64

def DIRTY_FLAG_VIEWPORT : Nat := 128

def DIRTY_FLAG_SCISSOR : Nat := 256

def DIRTY_FLAG_PIPELINE : Nat := 512

def DIRTY_FLAG_DESCRIPTOR_SETS : Nat := 1024

def DIRTY_BASE_STATE : Nat :=
  DIRTY_FLAG_VERTEX_BUFFER ||| DIRTY_FLAG_INDEX_BUFFER ||| DIRTY_FLAG_PIPELINE |||
    DIRTY_FLAG_VIEWPORT ||| DIRTY_FLAG_SCISSOR ||| DIRTY_FLAG_BLEND_CONSTANTS

def DIRTY_TFX_STATE : Nat :=
  DIRTY_BASE_STATE ||| DIRTY_FLAG_TFX_TEXTURES ||| DIRTY_FLAG_TFX_SAMPLERS

def DIRTY_UTILITY_STATE : Nat := DIRTY_BASE_STATE ||| DIRTY_FLAG_UTILITY_TEXTURE

/-- Bit test: `(flags & mask) != 0`. -/
def hasBits (flags mask : Nat) : Bool := (flags &&& mask) != 0

/-- Clearing bits within a 32-bit word: `flags &= ~mask`. -/
def clearBits (flags mask : Nat) : Nat := flags &&& (4294967295 ^^^ mask)

/-- The view handle of `m_null_texture` (a fixed non-null handle). -/
def nullTextureView : Handle := 3

/-- Fixed handles of the stream buffers owned by the device. -/
def vertexStreamBufferHandle : Handle := 1

def indexStreamBufferHandle : Handle := 2

def pointSamplerHandle : Handle := 4

def linearSamplerHandle : Handle := 5

/-- VK_INDEX_TYPE_UINT16 / VK_INDEX_TYPE_UINT32 numeric codes. -/
def indexTypeUInt16 : Nat := 0

def indexTypeUInt32 : Nat := 1

/-- The texture-side state of a `GSTextureVK` object that the device
operations read and update: type, format, dimensions, the discarded flag,
the lazily-created single-attachment framebuffer handle, the default view
handle and the tracked image layout (GSDeviceVK data model, section 3). -/
structure GSTextureState where
  id : Nat
  ty : GSTextureType
  format : Nat
  width : Int
  height : Int
  discarded : Bool
  framebuffer : Handle
  view : Handle
  layout : VkImageLayout
deriving DecidableEq, Repr

/-- The mutable state of `GSDeviceVK` (GSDeviceVK.h 634-663) together with
the recorded command stream and the oracles standing for the out-of-repo
collaborators: `ds_alloc` holds the outcome of each successive
`Vulkan::Context::AllocateDescriptorSet` call, the `*_reserve` lists the
outcome of each successive `Vulkan::StreamBuffer::ReserveMemory` call on the
respective stream buffer (section 4.1: ReserveMemory fails by returning
false without blocking), and `next_handle` supplies fresh non-null handles. -/
structure GSDeviceState where
  dirty_flags : Nat
  vertex_buffer : Handle
  vertex_buffer_offset : Nat
  index_buffer : Handle
  index_buffer_offset : Nat
  index_type : Nat
  current_framebuffer : Handle
  current_render_pass : Option VkRenderPassKey
  current_render_pass_area : GSVector4i
  viewport : GSVector4i
  scissor : GSVector4i
  blend_constants : Nat
  tfx_textures : List Handle
  tfx_samplers : List Handle
  tfx_sampler_sel : List Nat
  tfx_descriptor_sets : List Handle
  tfx_dynamic_offsets : List Nat
  utility_texture : Handle
  utility_sampler : Handle
  utility_descriptor_set : Handle
  current_pipeline_layout : PipelineLayoutKind
  current_pipeline : Handle
  vs_cb_cache : Nat
  ps_cb_cache : Nat
  vs_uni_cursor : Nat
  ps_uni_cursor : Nat
  readback_staging_size : Nat
  ds_alloc : List Bool
  next_handle : Nat
  vtx_reserve : List Bool
  idx_reserve : List Bool
  vs_uni_reserve : List Bool
  ps_uni_reserve : List Bool
  cmds : List VKCmd
deriving DecidableEq, Repr

/-- Record one command into the current command buffer. -/
def emit (s : GSDeviceState) (c : VKCmd) : GSDeviceState := { s with cmds := s.cmds ++ [c] }

/-- Embedding of `GSDeviceVK::InRenderPass` (GSDeviceVK.cpp 1795-1798). -/
def InRenderPass (s : GSDeviceState) : Bool := s.current_render_pass.isSome

/-- Embedding of `GSDeviceVK::EndRenderPass` (GSDeviceVK.cpp 1861-1869): a
no-op when no pass is open, otherwise records vkCmdEndRenderPass and clears
the current pass. -/
def EndRenderPass (s : GSDeviceState) : GSDeviceState :=
  match s.current_render_pass with
  | none => s
  | some _ => { emit s VKCmd.endRenderPass with current_render_pass := none }

/-- Embedding of `GSDeviceVK::BeginRenderPass` (GSDeviceVK.cpp 1800-1817):
ends any open pass, then records vkCmdBeginRenderPass over the current
framebuffer; updates both the current pass and its tracked area. -/
def BeginRenderPass (s : GSDeviceState) (rp : VkRenderPassKey) (rect : GSVector4i) :
    GSDeviceState :=
  let s := if s.current_render_pass.isSome then EndRenderPass s else s
  let s := { s with current_render_pass := some rp, current_render_pass_area := rect }
  emit s (VKCmd.beginRenderPass rp s.current_framebuffer rect none)

/-- Embedding of `GSDeviceVK::BeginClearRenderPass` (GSDeviceVK.cpp
1819-1840): ends any open pass, then records vkCmdBeginRenderPass with one
clear value.  Faithful to the source, only `m_current_render_pass` is
updated - the tracked area rectangle is left untouched. -/
def BeginClearRenderPass (s : GSDeviceState) (rp : VkRenderPassKey) (rect : GSVector4i)
    (clearColor : Nat) : GSDeviceState :=
  let s := if s.current_render_pass.isSome then EndRenderPass s else s
  let s := { s with current_render_pass := some rp }
  emit s (VKCmd.beginRenderPass rp s.current_framebuffer rect (some clearColor))

/-- Embedding of `GSDeviceVK::CheckRenderPass` (GSDeviceVK.cpp 1842-1859). -/
def CheckRenderPass (s : GSDeviceState) (rp : VkRenderPassKey) (rect : GSVector4i) : Bool :=
  if s.current_render_pass != some rp then false
  else if rect.left < s.current_render_pass_area.left ||
      rect.top < s.current_render_pass_area.top ||
      rect.right > s.current_render_pass_area.right ||
      rect.bottom > s.current_render_pass_area.bottom then false
  else true

/-- Embedding of `GSDeviceVK::InvalidateCachedState` (GSDeviceVK.cpp
1663-1676). -/
def InvalidateCachedState (s : GSDeviceState) : GSDeviceState :=
  let flags := s.dirty_flags |||
    (DIRTY_FLAG_TFX_TEXTURES ||| DIRTY_FLAG_TFX_SAMPLERS ||| DIRTY_FLAG_TFX_DYNAMIC_OFFSETS |||
      DIRTY_FLAG_UTILITY_TEXTURE ||| DIRTY_FLAG_BLEND_CONSTANTS ||| DIRTY_FLAG_VERTEX_BUFFER |||
      DIRTY_FLAG_INDEX_BUFFER ||| DIRTY_FLAG_VIEWPORT ||| DIRTY_FLAG_SCISSOR |||
      DIRTY_FLAG_PIPELINE ||| DIRTY_FLAG_DESCRIPTOR_SETS)
  let flags := if s.vertex_buffer != 0 then flags ||| DIRTY_FLAG_VERTEX_BUFFER else flags
  let flags := if s.index_buffer != 0 then flags ||| DIRTY_FLAG_INDEX_BUFFER else flags
  { s with
    dirty_flags := flags,
    current_pipeline_layout := PipelineLayoutKind.Undefined,
    tfx_descriptor_sets := (s.tfx_descriptor_sets.set 1 0).set 2 0,
    utility_descriptor_set := 0 }

/-- Embedding of `GSDeviceVK::ExecuteCommandBuffer(bool)` (GSDeviceVK.cpp
1624-1629): ends any pass, submits (the context-side submission is the
`submit` marker), and invalidates all cached bound state. -/
def ExecuteCommandBuffer (s : GSDeviceState) (waitForCompletion : Bool) : GSDeviceState :=
  let s := EndRenderPass s
  let s := emit s (VKCmd.submit waitForCompletion)
  InvalidateCachedState s

/-- Embedding of `GSDeviceVK::SetVertexBuffer` (GSDeviceVK.cpp 1678-1686). -/
def SetVertexBuffer (s : GSDeviceState) (buffer : Handle) (offset : Nat) : GSDeviceState :=
  if s.vertex_buffer == buffer && s.vertex_buffer_offset == offset then s
  else { s with vertex_buffer := buffer, vertex_buffer_offset := offset,
                dirty_flags := s.dirty_flags ||| DIRTY_FLAG_VERTEX_BUFFER }

/-- Embedding of `GSDeviceVK::SetIndexBuffer` (GSDeviceVK.cpp 1688-1697). -/
def SetIndexBuffer (s : GSDeviceState) (buffer : Handle) (offset : Nat) (ty : Nat) :
    GSDeviceState :=
  if s.index_buffer == buffer && s.index_buffer_offset == offset && s.index_type == ty then s
  else { s with index_buffer := buffer, index_buffer_offset := offset, index_type := ty,
                dirty_flags := s.dirty_flags ||| DIRTY_FLAG_INDEX_BUFFER }

/-- Embedding of `GSDeviceVK::SetFramebuffer` (GSDeviceVK.cpp 1699-1706):
changing the framebuffer first ends any open pass. -/
def SetFramebuffer (s : GSDeviceState) (framebuffer : Handle) : GSDeviceState :=
  if s.current_framebuffer == framebuffer then s
  else { EndRenderPass s with current_framebuffer := framebuffer }

/-- Embedding of `GSDeviceVK::SetBlendConstants` (GSDeviceVK.cpp 1708-1715). -/
def SetBlendConstants (s : GSDeviceState) (color : Nat) : GSDeviceState :=
  if s.blend_constants == color then s
  else { s with blend_constants := color, dirty_flags := s.dirty_flags ||| DIRTY_FLAG_BLEND_CONSTANTS }

/-- Embedding of `GSDeviceVK::SetViewport` (GSDeviceVK.cpp 1871-1878); the
viewport value is represented by the rectangle it was derived from. -/
def SetViewport (s : GSDeviceState) (vp : GSVector4i) : GSDeviceState :=
  if s.viewport == vp then s
  else { s with viewport := vp, dirty_flags := s.dirty_flags ||| DIRTY_FLAG_VIEWPORT }

/-- Embedding of `GSDeviceVK::SetScissor` (GSDeviceVK.cpp 1880-1887). -/
def SetScissor (s : GSDeviceState) (scissor : GSVector4i) : GSDeviceState :=
  if s.scissor == scissor then s
  else { s with scissor := scissor, dirty_flags := s.dirty_flags ||| DIRTY_FLAG_SCISSOR }

/-- Embedding of `GSDeviceVK::SetPipeline` (GSDeviceVK.cpp 1889-1896). -/
def SetPipeline (s : GSDeviceState) (pipeline : Handle) : GSDeviceState :=
  if s.current_pipeline == pipeline then s
  else { s with current_pipeline := pipeline, dirty_flags := s.dirty_flags ||| DIRTY_FLAG_PIPELINE }

/-- Embedding of `GSDeviceVK::SetViewportFromRect` / `SetViewportAndScissor`
(GSDeviceVK.cpp 1898-1913). -/
def SetViewportAndScissor (s : GSDeviceState) (rc : GSVector4i) : GSDeviceState :=
  SetScissor (SetViewport s rc) rc

/-- Modelled from the spec: `Vulkan::Texture::TransitionToLayout` (section
4.2) - emits exactly the barrier needed to move from the tracked current
layout to the new layout, or is a no-op if already in that layout; updates
the tracked layout. -/
def TransitionToLayout (s : GSDeviceState) (tex : GSTextureState) (l : VkImageLayout) :
    GSDeviceState × GSTextureState :=
  if tex.layout == l then (s, tex)
  else (emit s (VKCmd.imageBarrier tex.id 0 tex.layout l), { tex with layout := l })

/-- Modelled from the spec: `Vulkan::Texture::TransitionSubresourcesToLayout`
records the barrier moving the given subresource between the two given
layouts; per the section-3 layout invariant the tracked layout is updated
atomically with the transition command. -/
def TransitionSubresourcesToLayout (s : GSDeviceState) (tex : GSTextureState) (level : Nat)
    (oldLayout newLayout : VkImageLayout) : GSDeviceState × GSTextureState :=
  (emit s (VKCmd.imageBarrier tex.id level oldLayout newLayout), { tex with layout := newLayout })

/-- Embedding of `GSDeviceVK::SetUtilityTexture` (GSDeviceVK.cpp 1749-1770):
transitions the texture to shader-read layout, then updates the cached
utility binding only on an actual change. -/
def SetUtilityTexture (s : GSDeviceState) (tex : Option GSTextureState) (sampler : Handle) :
    GSDeviceState × Option GSTextureState :=
  match tex with
  | some t =>
    let p := TransitionToLayout s t VkImageLayout.shaderReadOnly
    let s := p.1
    let t := p.2
    if s.utility_texture == t.view && s.utility_sampler == sampler then (s, some t)
    else ({ s with utility_texture := t.view, utility_sampler := sampler,
                   dirty_flags := s.dirty_flags ||| DIRTY_FLAG_UTILITY_TEXTURE }, some t)
  | none =>
    if s.utility_texture == nullTextureView && s.utility_sampler == sampler then (s, none)
    else ({ s with utility_texture := nullTextureView, utility_sampler := sampler,
                   dirty_flags := s.dirty_flags ||| DIRTY_FLAG_UTILITY_TEXTURE }, none)

/-- Embedding of `Vulkan::Context::AllocateDescriptorSet` as an oracle: pops
the next pool outcome; success yields a fresh non-null handle, exhaustion
yields VK_NULL_HANDLE. -/
def AllocateDescriptorSet (s : GSDeviceState) : Handle × GSDeviceState :=
  match s.ds_alloc with
  | true :: rest => (s.next_handle + 1, { s with ds_alloc := rest, next_handle := s.next_handle + 1 })
  | false :: rest => (0, { s with ds_alloc := rest })
  | [] => (0, s)

/-- Record a command when the corresponding dirty bit is set. -/
def condEmit (b : Bool) (s : GSDeviceState) (c : VKCmd) : GSDeviceState :=
  if b then emit s c else s

/-- Embedding of `GSDeviceVK::ApplyBaseState` (GSDeviceVK.cpp 1915-1937). -/
def ApplyBaseState (flags : Nat) (s : GSDeviceState) : GSDeviceState :=
  let s := condEmit (hasBits flags DIRTY_FLAG_VERTEX_BUFFER) s
      (VKCmd.bindVertexBuffers s.vertex_buffer s.vertex_buffer_offset)
  let s := condEmit (hasBits flags DIRTY_FLAG_INDEX_BUFFER) s
      (VKCmd.bindIndexBuffer s.index_buffer s.index_buffer_offset s.index_type)
  let s := condEmit (hasBits flags DIRTY_FLAG_PIPELINE) s (VKCmd.bindPipeline s.current_pipeline)
  let s := condEmit (hasBits flags DIRTY_FLAG_VIEWPORT) s (VKCmd.setViewport s.viewport)
  let s := condEmit (hasBits flags DIRTY_FLAG_SCISSOR) s (VKCmd.setScissor s.scissor)
  condEmit (hasBits flags DIRTY_FLAG_BLEND_CONSTANTS) s
    (VKCmd.setBlendConstants s.blend_constants)

/-- Embedding of `GSDeviceVK::ExecuteCommandBufferAndRestartRenderPass`
(GSDeviceVK.cpp 1642-1661): captures the open pass and its area, flushes
without waiting, invalidates cached state, and - when a pass was open -
re-applies the base state and restarts the same pass over the same area. -/
def ExecuteCommandBufferAndRestartRenderPass (s : GSDeviceState) : GSDeviceState :=
  let render_pass := s.current_render_pass
  let render_pass_area := s.current_render_pass_area
  let s := EndRenderPass s
  let s := emit s (VKCmd.submit false)
  let s := InvalidateCachedState s
  match render_pass with
  | none => s
  | some rp =>
    let s := ApplyBaseState s.dirty_flags s
    let s := { s with dirty_flags := clearBits s.dirty_flags DIRTY_BASE_STATE }
    BeginRenderPass s rp render_pass_area

/-- Outcome of one straight-line pass through `ApplyTFXState` /
`ApplyUtilityState`: either the function returned, or a descriptor pool ran
dry and the operation is to be retried after the flush-restart. -/
inductive ApplyStep where
  | done (ok : Bool) (s : GSDeviceState)
  | retry (s : GSDeviceState)

/-- Tail of `ApplyTFXState` after the descriptor sets are in place
(GSDeviceVK.cpp 1983-1997): bind descriptor sets when the layout changed or
a set was re-created, else rebind only the dynamic offsets when they are
dirty; then apply the base state. -/
def applyTFXFinish (flags : Nat) (s : GSDeviceState) : GSDeviceState :=
  let s :=
    if s.current_pipeline_layout != PipelineLayoutKind.TFX ||
        hasBits flags DIRTY_FLAG_DESCRIPTOR_SETS then
      { emit s (VKCmd.bindDescriptorSets PipelineLayoutKind.TFX s.tfx_descriptor_sets
          s.tfx_dynamic_offsets) with current_pipeline_layout := PipelineLayoutKind.TFX }
    else if hasBits flags DIRTY_FLAG_TFX_DYNAMIC_OFFSETS then
      emit s (VKCmd.bindDescriptorSets PipelineLayoutKind.TFX [] s.tfx_dynamic_offsets)
    else s
  ApplyBaseState flags s

/-- Sampler-set block of `ApplyTFXState` (GSDeviceVK.cpp 1967-1981). -/
def applyTFXSamplers (flags : Nat) (s : GSDeviceState) : ApplyStep :=
  if hasBits flags DIRTY_FLAG_TFX_SAMPLERS then
    let p := AllocateDescriptorSet s
    if p.1 == 0 then
      ApplyStep.retry (ExecuteCommandBufferAndRestartRenderPass p.2)
    else
      ApplyStep.done true (applyTFXFinish (flags ||| DIRTY_FLAG_DESCRIPTOR_SETS)
        { p.2 with tfx_descriptor_sets := p.2.tfx_descriptor_sets.set 2 p.1 })
  else ApplyStep.done true (applyTFXFinish flags s)

/-- One straight-line pass through `GSDeviceVK::ApplyTFXState`
(GSDeviceVK.cpp 1939-1998).  Note that the early-out consumes
`m_dirty_flags` into `flags` and then clears only `DIRTY_TFX_STATE` from the
member - the dynamic-offset, utility-texture and descriptor-set bits stay
set in `m_dirty_flags`. -/
def ApplyTFXStateOnce (s0 : GSDeviceState) : ApplyStep :=
  if s0.current_pipeline_layout == PipelineLayoutKind.TFX && s0.dirty_flags == 0 then
    ApplyStep.done true s0
  else
    let flags := s0.dirty_flags
    let s := { s0 with dirty_flags := clearBits s0.dirty_flags DIRTY_TFX_STATE }
    if hasBits flags DIRTY_FLAG_TFX_TEXTURES || s.tfx_descriptor_sets.getD 1 0 == 0 then
      let p := AllocateDescriptorSet s
      if p.1 == 0 then
        ApplyStep.retry (ExecuteCommandBufferAndRestartRenderPass p.2)
      else
        applyTFXSamplers (flags ||| DIRTY_FLAG_DESCRIPTOR_SETS)
          { p.2 with tfx_descriptor_sets := p.2.tfx_descriptor_sets.set 1 p.1 }
    else
      applyTFXSamplers flags s

/-- Embedding of `GSDeviceVK::ApplyTFXState` with explicit retry fuel; the
source retries itself from the top after a pool-exhaustion flush
(GSDeviceVK.cpp 1957 and 1973: `return ApplyTFXState();`). -/
def ApplyTFXState : Nat → GSDeviceState → Bool × GSDeviceState
  | 0, s => (false, s)
  | fuel + 1, s =>
    match ApplyTFXStateOnce s with
    | ApplyStep.done ok s => (ok, s)
    | ApplyStep.retry s => ApplyTFXState fuel s

/-- Tail of `ApplyUtilityState` (GSDeviceVK.cpp 2026-2034). -/
def applyUtilityFinish (flags : Nat) (s : GSDeviceState) : GSDeviceState :=
  let s :=
    if s.current_pipeline_layout != PipelineLayoutKind.Utility ||
        hasBits flags DIRTY_FLAG_DESCRIPTOR_SETS then
      { emit s (VKCmd.bindDescriptorSets PipelineLayoutKind.Utility [s.utility_descriptor_set] [])
          with current_pipeline_layout := PipelineLayoutKind.Utility }
    else s
  ApplyBaseState flags s

/-- One straight-line pass through `GSDeviceVK::ApplyUtilityState`
(GSDeviceVK.cpp 2000-2035). -/
def ApplyUtilityStateOnce (s0 : GSDeviceState) : ApplyStep :=
  if s0.current_pipeline_layout == PipelineLayoutKind.Utility && s0.dirty_flags == 0 then
    ApplyStep.done true s0
  else
    let flags := s0.dirty_flags
    let s := { s0 with dirty_flags := clearBits s0.dirty_flags DIRTY_UTILITY_STATE }
    if hasBits flags DIRTY_FLAG_UTILITY_TEXTURE || s.utility_descriptor_set == 0 then
      let p := AllocateDescriptorSet s
      let s := { p.2 with utility_descriptor_set := p.1 }
      if p.1 == 0 then
        ApplyStep.retry (ExecuteCommandBufferAndRestartRenderPass s)
      else
        ApplyStep.done true (applyUtilityFinish (flags ||| DIRTY_FLAG_DESCRIPTOR_SETS) s)
    else
      ApplyStep.done true (applyUtilityFinish flags s)

/-- Embedding of `GSDeviceVK::ApplyUtilityState`.  Faithful to the source,
the retry after a utility-descriptor pool exhaustion is
`return ApplyTFXState();` (GSDeviceVK.cpp 2016), not a retry of
`ApplyUtilityState` itself. -/
def ApplyUtilityState (fuel : Nat) (s : GSDeviceState) : Bool × GSDeviceState :=
  match ApplyUtilityStateOnce s with
  | ApplyStep.done ok s => (ok, s)
  | ApplyStep.retry s => ApplyTFXState fuel s

/-! ## Transient upload sites with the flush-and-retry pattern
(GSDeviceVK.cpp 673-736 and 787-819) -/

/-- Pop the next `ReserveMemory` outcome from a stream-buffer oracle. -/
def streamReserve : List Bool → Bool × List Bool
  | [] => (false, [])
  | b :: rest => (b, rest)

/-- Embedding of `GSDeviceVK::IASetVertexBuffer` (GSDeviceVK.cpp 673-691):
reserve; on failure flush without waiting and retry once; a second failure is
the fatal `pxFailRel` path (`none`).  On success the data is committed and
the vertex binding set. -/
def IASetVertexBuffer (s : GSDeviceState) : Option GSDeviceState :=
  let p := streamReserve s.vtx_reserve
  let s := { s with vtx_reserve := p.2 }
  if p.1 then some (SetVertexBuffer s vertexStreamBufferHandle 0)
  else
    let s := ExecuteCommandBuffer s false
    let q := streamReserve s.vtx_reserve
    let s := { s with vtx_reserve := q.2 }
    if q.1 then some (SetVertexBuffer s vertexStreamBufferHandle 0)
    else none

/-- Embedding of `GSDeviceVK::IAMapVertexBuffer` (GSDeviceVK.cpp 693-711);
identical reserve/flush/retry/abort structure. -/
def IAMapVertexBuffer (s : GSDeviceState) : Option GSDeviceState :=
  let p := streamReserve s.vtx_reserve
  let s := { s with vtx_reserve := p.2 }
  if p.1 then some (SetVertexBuffer s vertexStreamBufferHandle 0)
  else
    let s := ExecuteCommandBuffer s false
    let q := streamReserve s.vtx_reserve
    let s := { s with vtx_reserve := q.2 }
    if q.1 then some (SetVertexBuffer s vertexStreamBufferHandle 0)
    else none

/-- Embedding of `GSDeviceVK::IASetIndexBuffer` (GSDeviceVK.cpp 719-736). -/
def IASetIndexBuffer (s : GSDeviceState) : Option GSDeviceState :=
  let p := streamReserve s.idx_reserve
  let s := { s with idx_reserve := p.2 }
  if p.1 then some (SetIndexBuffer s indexStreamBufferHandle 0 indexTypeUInt32)
  else
    let s := ExecuteCommandBuffer s false
    let q := streamReserve s.idx_reserve
    let s := { s with idx_reserve := q.2 }
    if q.1 then some (SetIndexBuffer s indexStreamBufferHandle 0 indexTypeUInt32)
    else none

/-- Embedding of `GSDeviceVK::SetupVS` (GSDeviceVK.cpp 787-802): the constant
buffer cache filters unchanged data; otherwise reserve/flush/retry/abort on
the vertex uniform stream buffer, then store the new dynamic offset and
commit. -/
def SetupVS (s : GSDeviceState) (cb : Nat) : Option GSDeviceState :=
  if cb == s.vs_cb_cache then some s
  else
    let s := { s with vs_cb_cache := cb }
    let commit := fun (s : GSDeviceState) =>
      { s with tfx_dynamic_offsets := s.tfx_dynamic_offsets.set 0 s.vs_uni_cursor,
               vs_uni_cursor := s.vs_uni_cursor + 1 }
    let p := streamReserve s.vs_uni_reserve
    let s := { s with vs_uni_reserve := p.2 }
    if p.1 then some (commit s)
    else
      let s := ExecuteCommandBuffer s false
      let q := streamReserve s.vs_uni_reserve
      let s := { s with vs_uni_reserve := q.2 }
      if q.1 then some (commit s)
      else none

/-- Embedding of `GSDeviceVK::SetupPS` (GSDeviceVK.cpp 804-819). -/
def SetupPS (s : GSDeviceState) (cb : Nat) : Option GSDeviceState :=
  if cb == s.ps_cb_cache then some s
  else
    let s := { s with ps_cb_cache := cb }
    let commit := fun (s : GSDeviceState) =>
      { s with tfx_dynamic_offsets := s.tfx_dynamic_offsets.set 1 s.ps_uni_cursor,
               ps_uni_cursor := s.ps_uni_cursor + 1 }
    let p := streamReserve s.ps_uni_reserve
    let s := { s with ps_uni_reserve := p.2 }
    if p.1 then some (commit s)
    else
      let s := ExecuteCommandBuffer s false
      let q := streamReserve s.ps_uni_reserve
      let s := { s with ps_uni_reserve := q.2 }
      if q.1 then some (commit s)
      else none

/-! ## Stretch-rect blits (GSDeviceVK.cpp 460-537) -/

/-- Embedding of `GSDeviceVK::DrawStretchRect` (GSDeviceVK.cpp 518-537):
upload the four-vertex quad, then apply utility state and draw. -/
def DrawStretchRect (fuel : Nat) (s : GSDeviceState) : Option GSDeviceState :=
  match IASetVertexBuffer s with
  | none => none
  | some s =>
    let p := ApplyUtilityState fuel s
    some (if p.1 then emit p.2 VKCmd.draw else p.2)

/-- The attachment layout a destination texture is moved to before rendering
into it (GSDeviceVK.cpp 471-474). -/
def attachmentLayoutFor (ty : GSTextureType) : VkImageLayout :=
  if ty == GSTextureType.DepthStencil then VkImageLayout.depthStencilAttachment
  else VkImageLayout.colorAttachment

/-- Embedding of `GSDeviceVK::DoStretchRect` (GSDeviceVK.cpp 460-516).
Returns `none` on the fatal vertex-upload abort path; otherwise the updated
device state, source texture and destination texture.  (The host display
dimensions consulted when the destination is null, and the vertex
coordinates derived from the rectangles, only feed the vertex data, which is
not modelled.) -/
def DoStretchRect (fuel : Nat) (s : GSDeviceState) (sTex : GSTextureState)
    (dTex : Option GSTextureState) (dRect : GSVector4i) (pipeline : Handle)
    (linear : Bool) :
    Option (GSDeviceState × GSTextureState × Option GSTextureState) :=
  let fb := match dTex with
    | some d => d.framebuffer
    | none => 0
  let blitting_to_current_rt := dTex.isNone || (InRenderPass s && s.current_framebuffer == fb)
  let smp := if linear then linearSamplerHandle else pointSamplerHandle
  if blitting_to_current_rt then
    let p := SetUtilityTexture s (some sTex) smp
    let s := p.1
    let sTex := p.2.getD sTex
    let s := SetPipeline s pipeline
    match DrawStretchRect fuel s with
    | none => none
    | some s => some (s, sTex, dTex)
  else
    match dTex with
    | none => some (s, sTex, none)
    | some d =>
      if fb == 0 then some (s, sTex, some d)
      else
        let s := EndRenderPass s
        let q := TransitionToLayout s d (attachmentLayoutFor d.ty)
        let s := q.1
        let d := q.2
        let p := SetUtilityTexture s (some sTex) smp
        let s := p.1
        let sTex := p.2.getD sTex
        let s := SetPipeline s pipeline
        let dst_rc := dRect
        let tex_rc : GSVector4i := ⟨0, 0, d.width, d.height⟩
        let is_whole_target := d.discarded || dst_rc == tex_rc
        let s := SetFramebuffer s fb
        let s :=
          if d.ty == GSTextureType.DepthStencil then
            BeginRenderPass s
              (if is_whole_target then m_utility_depth_render_pass_discard
               else m_utility_depth_render_pass_load) tex_rc
          else if d.format == RT_FORMAT then
            BeginRenderPass s
              (if is_whole_target then m_utility_color_render_pass_discard
               else m_utility_color_render_pass_load) tex_rc
          else
            BeginRenderPass s
              (GetRenderPass (some d.format) none
                (if is_whole_target then VkAttachmentLoadOp.dontCare
                 else VkAttachmentLoadOp.load)) tex_rc
        let s := SetViewportAndScissor s tex_rc
        match DrawStretchRect fuel s with
        | none => none
        | some s =>
          let s := EndRenderPass s
          let r := TransitionToLayout s d VkImageLayout.shaderReadOnly
          some (r.1, sTex, some r.2)

/-! ## Texture readback (GSDeviceVK.cpp 336-388) -/

/-- Modelled from the spec: `Vulkan::Util::GetTexelSize`, the per-format byte
size of one texel for the formats this backend reads back. -/
def GetTexelSize (fmt : Nat) : Nat :=
  if fmt == 98 then 2
  else if fmt == 103 then 8
  else 4

/-- Embedding of `GSDeviceVK::ReadbackTexture` (GSDeviceVK.cpp 336-388):
reject regions larger than the readback staging buffer before recording
anything; otherwise end any pass, move the copied subresource to
transfer-src (when not already there), copy, move it back, and submit
waiting for completion. -/
def ReadbackTexture (s : GSDeviceState) (src : GSTextureState) (rect : GSVector4i)
    (level : Nat) : Bool × GSDeviceState × GSTextureState :=
  let width := rect.width.toNat
  let height := rect.height.toNat
  let pitch := width * GetTexelSize src.format
  let size := pitch * height
  if size > s.readback_staging_size then (false, s, src)
  else
    let s := EndRenderPass s
    let old_layout := src.layout
    let p := if old_layout != VkImageLayout.transferSrc then
        TransitionSubresourcesToLayout s src level old_layout VkImageLayout.transferSrc
      else (s, src)
    let s := p.1
    let src := p.2
    let s := emit s (VKCmd.copyImageToBuffer src.id rect level)
    let q := if old_layout != VkImageLayout.transferSrc then
        TransitionSubresourcesToLayout s src level VkImageLayout.transferSrc old_layout
      else (s, src)
    let s := q.1
    let src := q.2
    let s := ExecuteCommandBuffer s true
    (true, s, src)

/-! ## Linked color/depth framebuffers (GSDeviceVK.cpp 2078-2100 and
2419-2444) -/

/-- The linked-framebuffer-relevant state of one `GSTextureVK`: its type, its
`m_linked_textures` list of (partner id, shared framebuffer) pairs, and its
own single-attachment `m_framebuffer`. -/
structure LinkedTex where
  ty : GSTextureType
  linked : List (Nat × Handle)
  framebuffer : Handle
deriving DecidableEq, Repr

/-- A world of live texture objects addressed by id, the log of
`Vulkan::Context::DeferFramebufferDestruction` calls, and a fresh-handle
supply for framebuffer creation. -/
structure TexWorld where
  texs : List (Nat × LinkedTex)
  deferred : List Handle
  next_fb : Nat
deriving DecidableEq, Repr

def lookupTex : List (Nat × LinkedTex) → Nat → Option LinkedTex
  | [], _ => none
  | (j, t) :: rest, i => if j == i then some t else lookupTex rest i

def updateTex : List (Nat × LinkedTex) → Nat → LinkedTex → List (Nat × LinkedTex)
  | [], _, _ => []
  | (j, t) :: rest, i, t2 => if j == i then (i, t2) :: rest else (j, t) :: updateTex rest i t2

def removeTex : List (Nat × LinkedTex) → Nat → List (Nat × LinkedTex)
  | [], _ => []
  | (j, t) :: rest, i => if j == i then removeTex rest i else (j, t) :: removeTex rest i

/-- The lookup loop at the top of `GSTextureVK::GetLinkedFramebuffer`
(GSDeviceVK.cpp 2421-2425). -/
def findLinked : List (Nat × Handle) → Nat → Option Handle
  | [], _ => none
  | (p, fb) :: rest, i => if p == i then some fb else findLinked rest i

/-- The erase-first-match loop of the `GSTextureVK` destructor
(GSDeviceVK.cpp 2085-2092): removes the first entry whose partner is `i`. -/
def removeFirstLink : List (Nat × Handle) → Nat → List (Nat × Handle)
  | [], _ => []
  | (p, fb) :: rest, i => if p == i then rest else (p, fb) :: removeFirstLink rest i

/-- Embedding of `GSTextureVK::GetLinkedFramebuffer` (GSDeviceVK.cpp
2419-2444): return the cached pair if present, else create a fresh
framebuffer and register it symmetrically at the back of both objects'
linked lists. -/
def GetLinkedFramebuffer (w : TexWorld) (selfId depthId : Nat) : Option (Handle × TexWorld) :=
  match lookupTex w.texs selfId, lookupTex w.texs depthId with
  | some selfT, some depthT =>
    match findLinked selfT.linked depthId with
    | some fb => some (fb, w)
    | none =>
      let fb := w.next_fb + 1
      let selfT2 := { selfT with linked := selfT.linked ++ [(depthId, fb)] }
      let depthT2 := { depthT with linked := depthT.linked ++ [(selfId, fb)] }
      some (fb, { w with
        texs := updateTex (updateTex w.texs selfId selfT2) depthId depthT2,
        next_fb := fb })
  | _, _ => none

/-- The destructor loop over `m_linked_textures` (GSDeviceVK.cpp 2082-2095):
for each (partner, framebuffer) pair, remove the reverse reference from the
partner and defer-destroy the shared framebuffer. -/
def processLinks (selfId : Nat) : TexWorld → List (Nat × Handle) → TexWorld
  | w, [] => w
  | w, (otherId, fb) :: rest =>
    let w := match lookupTex w.texs otherId with
      | some ot =>
        let ot2 := { ot with linked := removeFirstLink ot.linked selfId }
        { w with texs := updateTex w.texs otherId ot2 }
      | none => w
    let w := { w with deferred := w.deferred ++ [fb] }
    processLinks selfId w rest

/-- Embedding of the `GSTextureVK` destructor (GSDeviceVK.cpp 2078-2100):
render-target/depth-stencil textures tear down their linked-framebuffer
entries from both sides and defer-destroy each shared framebuffer, then the
texture's own framebuffer is deferred if present. -/
def destroyTexture (w : TexWorld) (i : Nat) : TexWorld :=
  match lookupTex w.texs i with
  | none => w
  | some t =>
    let w :=
      if t.ty == GSTextureType.RenderTarget || t.ty == GSTextureType.DepthStencil then
        processLinks i w t.linked
      else w
    let w := if t.framebuffer != 0 then { w with deferred := w.deferred ++ [t.framebuffer] } else w
    { w with texs := removeTex w.texs i }

/-- Occurrences of a handle in a deferred-destruction log. -/
def countH (h : Handle) : List Handle → Nat
  | [] => 0
  | x :: rest => (if x = h then 1 else 0) + countH h rest

/-- A framebuffer handle is fresh for a world: referenced by no linked list,
owned by no texture, and not already deferred. -/
def fbFresh (fb : Handle) (w : TexWorld) : Prop :=
  (∀ it ∈ w.texs, (∀ e ∈ it.2.linked, e.2 ≠ fb) ∧ it.2.framebuffer ≠ fb) ∧
  (∀ h ∈ w.deferred, h ≠ fb)

/-! ## Trace observations and concrete states -/

/-- Commands that bind or set pipeline state (the "bind commands" of the
idempotence property): descriptor-set binds, vertex/index/pipeline binds and
dynamic-state sets. -/
def isBindCmd : VKCmd → Bool
  | VKCmd.bindVertexBuffers _ _ => true
  | VKCmd.bindIndexBuffer _ _ _ => true
  | VKCmd.bindPipeline _ => true
  | VKCmd.setViewport _ => true
  | VKCmd.setScissor _ => true
  | VKCmd.setBlendConstants _ => true
  | VKCmd.bindDescriptorSets _ _ _ => true
  | _ => false

def bindCount (cs : List VKCmd) : Nat := (cs.filter isBindCmd).length

def isRPBoundary : VKCmd → Bool
  | VKCmd.beginRenderPass _ _ _ _ => true
  | VKCmd.endRenderPass => true
  | _ => false

def rpBoundaries (cs : List VKCmd) : List VKCmd := cs.filter isRPBoundary

def isSubmit : VKCmd → Bool
  | VKCmd.submit _ => true
  | _ => false

def submitCount (cs : List VKCmd) : Nat := (cs.filter isSubmit).length

def isNoWaitSubmit : VKCmd → Bool
  | VKCmd.submit false => true
  | _ => false

def noWaitSubmitCount (cs : List VKCmd) : Nat := (cs.filter isNoWaitSubmit).length

/-- Render-pass bracket scan over a command stream: `some false` = properly
bracketed and currently closed, `some true` = properly bracketed and one pass
open, `none` = a nested begin or an unmatched end occurred. -/
def rpStep (st : Option Bool) (c : VKCmd) : Option Bool :=
  match st with
  | none => none
  | some opened =>
    match c with
    | VKCmd.beginRenderPass _ _ _ _ => if opened then none else some true
    | VKCmd.endRenderPass => if opened then some false else none
    | _ => some opened

def rpScan (cs : List VKCmd) : Option Bool := cs.foldl rpStep (some false)

/-- Render-pass manipulations exposed by the device (all writes to
`m_current_render_pass` and all vkCmdBeginRenderPass/vkCmdEndRenderPass
recordings in the source go through these three member functions). -/
inductive RPOp where
  | beginPass (rp : VkRenderPassKey) (rect : GSVector4i)
  | beginClear (rp : VkRenderPassKey) (rect : GSVector4i) (c : Nat)
  | endPass
deriving DecidableEq, Repr

def runRPOp (s : GSDeviceState) : RPOp → GSDeviceState
  | RPOp.beginPass rp rect => BeginRenderPass s rp rect
  | RPOp.beginClear rp rect c => BeginClearRenderPass s rp rect c
  | RPOp.endPass => EndRenderPass s

def runRPOps : GSDeviceState → List RPOp → GSDeviceState
  | s, [] => s
  | s, op :: rest => runRPOps (runRPOp s op) rest

/-- The device state established by `GSDeviceVK::InitializeState`
(GSDeviceVK.cpp 1558-1589) followed by the `InvalidateCachedState` it ends
with: stream-buffer bindings cached, null views bound, point samplers
selected, no pass open, and every dirty bit set.  Descriptor set 0 is the
persistent TFX UBO set (GSDeviceVK.cpp 1591-1607).  The oracles are set up
for a run in which every allocation succeeds. -/
def initialDeviceState : GSDeviceState :=
  InvalidateCachedState
    { dirty_flags := 0
      vertex_buffer := vertexStreamBufferHandle
      vertex_buffer_offset := 0
      index_buffer := indexStreamBufferHandle
      index_buffer_offset := 0
      index_type := indexTypeUInt32
      current_framebuffer := 0
      current_render_pass := none
      current_render_pass_area := ⟨0, 0, 0, 0⟩
      viewport := ⟨0, 0, 1, 1⟩
      scissor := ⟨0, 0, 0, 0⟩
      blend_constants := 0
      tfx_textures := [nullTextureView, nullTextureView, nullTextureView, nullTextureView]
      tfx_samplers := [pointSamplerHandle, pointSamplerHandle]
      tfx_sampler_sel := [0, 0]
      tfx_descriptor_sets := [50, 0, 0]
      tfx_dynamic_offsets := [0, 0]
      utility_texture := nullTextureView
      utility_sampler := 0
      utility_descriptor_set := 0
      current_pipeline_layout := PipelineLayoutKind.Undefined
      current_pipeline := 0
      vs_cb_cache := 0
      ps_cb_cache := 0
      vs_uni_cursor := 0
      ps_uni_cursor := 0
      readback_staging_size := 1024
      ds_alloc := [true, true, true, true]
      next_handle := 100
      vtx_reserve := [true, true, true, true]
      idx_reserve := [true, true]
      vs_uni_reserve := [true, true]
      ps_uni_reserve := [true, true]
      cmds := [] }

/-- Command stream of an optional device state (empty when the fatal abort
path was taken). -/
def optCmds : Option GSDeviceState → List VKCmd
  | some s => s.cmds
  | none => []

/-- Is this a descriptor-set bind under the utility pipeline layout? -/
def isUtilityDescriptorBind : VKCmd → Bool
  | VKCmd.bindDescriptorSets PipelineLayoutKind.Utility _ _ => true
  | _ => false

/-- Is this a descriptor-set bind under the TFX pipeline layout? -/
def isTFXDescriptorBind : VKCmd → Bool
  | VKCmd.bindDescriptorSets PipelineLayoutKind.TFX _ _ => true
  | _ => false

/-- A device state in the middle of a utility pass: the utility regime is
bound, a color render pass is open over the full 64x64 target, the utility
texture binding is dirty, and the next descriptor-set allocation fails (the
pool is exhausted) while all later allocations succeed. -/
def utilityExhaustionState : GSDeviceState :=
  { dirty_flags := DIRTY_FLAG_UTILITY_TEXTURE
    vertex_buffer := vertexStreamBufferHandle
    vertex_buffer_offset := 0
    index_buffer := indexStreamBufferHandle
    index_buffer_offset := 0
    index_type := indexTypeUInt32
    current_framebuffer := 6
    current_render_pass := some m_utility_color_render_pass_load
    current_render_pass_area := ⟨0, 0, 64, 64⟩
    viewport := ⟨0, 0, 64, 64⟩
    scissor := ⟨0, 0, 64, 64⟩
    blend_constants := 0
    tfx_textures := [nullTextureView, nullTextureView, nullTextureView, nullTextureView]
    tfx_samplers := [pointSamplerHandle, pointSamplerHandle]
    tfx_sampler_sel := [0, 0]
    tfx_descriptor_sets := [50, 60, 61]
    tfx_dynamic_offsets := [0, 0]
    utility_texture := 7
    utility_sampler := linearSamplerHandle
    utility_descriptor_set := 77
    current_pipeline_layout := PipelineLayoutKind.Utility
    current_pipeline := 9
    vs_cb_cache := 0
    ps_cb_cache := 0
    vs_uni_cursor := 0
    ps_uni_cursor := 0
    readback_staging_size := 1024
    ds_alloc := [false, true, true, true]
    next_handle := 200
    vtx_reserve := [true, true]
    idx_reserve := [true, true]
    vs_uni_reserve := [true, true]
    ps_uni_reserve := [true, true]
    cmds := [] }

theorem PipelineSelector.eqOp_iff (a b : PipelineSelector) :
    PipelineSelector.eqOp a b = true ↔ a = b := by
  cases a; cases b
  simp [PipelineSelector.eqOp, PipelineSelector.mk.injEq, and_assoc]

theorem cacheInv_empty (create : PipelineSelector → Handle) :
    CacheInv create emptyTFXPipelineCache := by
  constructor
  · intro e he; simp [emptyTFXPipelineCache] at he
  · intro q; simp [emptyTFXPipelineCache, countSel]

theorem findPipeline_cons (q : PipelineSelector) (h : Handle)
    (rest : List (PipelineSelector × Handle)) (p : PipelineSelector) :
    findPipeline ((q, h) :: rest) p =
      if q = p then some h else findPipeline rest p := by
  simp only [findPipeline]
  by_cases hqp : q = p
  · simp [hqp, PipelineSelector.eqOp_iff]
  · have : PipelineSelector.eqOp q p = false := by
      cases hb : PipelineSelector.eqOp q p
      · rfl
      · exact absurd ((PipelineSelector.eqOp_iff q p).mp hb) hqp
    simp [this, hqp]

theorem findPipeline_mem (l : List (PipelineSelector × Handle)) (p : PipelineSelector)
    (h : Handle) (hf : findPipeline l p = some h) : (p, h) ∈ l := by
  induction l with
  | nil => simp [findPipeline] at hf
  | cons e rest ih =>
    obtain ⟨q, v⟩ := e
    rw [findPipeline_cons] at hf
    by_cases hqp : q = p
    · subst hqp
      simp at hf
      subst hf
      exact List.mem_cons_self _ _
    · simp [hqp] at hf
      exact List.mem_cons_of_mem _ (ih hf)

theorem getTFXPipeline_result (create : PipelineSelector → Handle)
    (s : TFXPipelineCache) (p : PipelineSelector) (hinv : CacheInv create s) :
    (GetTFXPipeline create s p).1 = create p := by
  unfold GetTFXPipeline
  cases hf : findPipeline s.cache p with
  | none => simp
  | some h =>
    simp only
    exact hinv.1 (p, h) (findPipeline_mem s.cache p h hf)

theorem getTFXPipeline_preserves_inv (create : PipelineSelector → Handle)
    (s : TFXPipelineCache) (p : PipelineSelector) (hinv : CacheInv create s) :
    CacheInv create (GetTFXPipeline create s p).2 := by
  obtain ⟨hc, hk⟩ := hinv
  unfold GetTFXPipeline
  cases hf : findPipeline s.cache p with
  | some h => exact ⟨hc, hk⟩
  | none =>
    simp only
    constructor
    · intro e he
      rcases List.mem_cons.mp he with he | he
      · subst he; rfl
      · exact hc e he
    · intro q
      have hq := hk q
      rw [findPipeline_cons]
      by_cases hqp : p = q
      · subst hqp
        have h0 : countSel p s.createCalls = 0 := hq.2 hf
        constructor
        · simp [countSel, h0]
        · simp
      · have hne : (if p = q then 1 else 0) = 0 := by simp [hqp]
        constructor
        · simpa [countSel, hne] using hq.1
        · intro hnone
          simp [hqp] at hnone
          simpa [countSel, hne] using hq.2 hnone

theorem runGets_preserves_inv (create : PipelineSelector → Handle)
    (ps : List PipelineSelector) (s : TFXPipelineCache) (hinv : CacheInv create s) :
    CacheInv create (runGets create ps s) := by
  induction ps generalizing s with
  | nil => exact hinv
  | cons p rest ih =>
    exact ih _ (getTFXPipeline_preserves_inv create s p hinv)

/-- C2: for bit-identical `PipelineSelector` values (equal under the raw
bit-pattern comparison `operator==`, however the instances were constructed),
`GetTFXPipeline` returns the identical handle after any sequence of prior
requests - namely the deterministic result of `CreateTFXPipeline` for that
selector, null included, which is also what remains stored in the cache - and
`CreateTFXPipeline` has been invoked at most once for the selector over the
whole run. -/
theorem getTFXPipeline_cache_deterministic (create : PipelineSelector → Handle)
    (ps : List PipelineSelector) (p q : PipelineSelector)
    (hpq : PipelineSelector.eqOp p q = true) :
    (GetTFXPipeline create (runGets create ps emptyTFXPipelineCache) p).1 =
      (GetTFXPipeline create (runGets create ps emptyTFXPipelineCache) q).1 ∧
    (GetTFXPipeline create (runGets create ps emptyTFXPipelineCache) p).1 = create p ∧
    findPipeline
        (GetTFXPipeline create (runGets create ps emptyTFXPipelineCache) p).2.cache p =
      some (create p) ∧
    countSel p
        (GetTFXPipeline create (runGets create ps emptyTFXPipelineCache) p).2.createCalls ≤ 1 := by
  have hinv : CacheInv create (runGets create ps emptyTFXPipelineCache) :=
    runGets_preserves_inv create ps _ (cacheInv_empty create)
  have hpq' : p = q := (PipelineSelector.eqOp_iff p q).mp hpq
  subst hpq'
  refine ⟨rfl, getTFXPipeline_result create _ p hinv, ?_, ?_⟩
  · have hinv' := getTFXPipeline_preserves_inv create _ p hinv
    have hres := getTFXPipeline_result create _ p hinv
    -- after the call, p is cached (hit keeps it, miss inserts it); the cached
    -- value equals create p by the invariant
    unfold GetTFXPipeline at hres hinv' ⊢
    cases hf : findPipeline (runGets create ps emptyTFXPipelineCache).cache p with
    | none => simp [findPipeline_cons]
    | some h =>
      simp only
      rw [hf]
      rw [hf] at hres
      simp at hres
      rw [hres]
  · have hinv' := getTFXPipeline_preserves_inv create _ p hinv
    exact (hinv'.2 p).1

/-- Witness for C2 at a concrete input: two separately constructed,
bit-identical selectors hit the same cache slot. -/
theorem getTFXPipeline_cache_deterministic_witness :
    (PipelineSelector.eqOp ⟨1, 2, 3, 4, 5, 6⟩ ⟨1, 2, 3, 4, 5, 6⟩ = true) ∧
    ((GetTFXPipeline (fun _ => 7)
        (runGets (fun _ => 7) [⟨1, 2, 3, 4, 5, 6⟩] emptyTFXPipelineCache)
        ⟨1, 2, 3, 4, 5, 6⟩).1 =
      (GetTFXPipeline (fun _ => 7)
        (runGets (fun _ => 7) [⟨1, 2, 3, 4, 5, 6⟩] emptyTFXPipelineCache)
        ⟨1, 2, 3, 4, 5, 6⟩).1) := by
  constructor
  · decide
  · exact (getTFXPipeline_cache_deterministic (fun _ => 7) [⟨1, 2, 3, 4, 5, 6⟩]
      ⟨1, 2, 3, 4, 5, 6⟩ ⟨1, 2, 3, 4, 5, 6⟩ (by decide)).1

/-- C8 counterexample: the specification words for the necessity predicate
disagree with `GSSelector::IsNeeded` on the sprite-with-Gouraud-interpolation
selector (`iip = 1`, `prim = 3`): the code compiles and binds a geometry
shader there, while the spec predicate (which requires flat-shading) does
not - under any reading of the first conjunct that keeps flat-shading as a
requirement. -/
theorem gsNeededSpec_mismatch :
    GSSelector.IsNeeded ⟨1, 3, 0, 0, 0⟩ = true ∧ gsNeededSpec ⟨1, 3, 0, 0, 0⟩ = false := by
  constructor <;> decide

/-- C8 (amended): the geometry shader is retrieved and attached exactly when
`GSSelector::IsNeeded` holds, whose actual predicate is: (primitive-type is
line, triangle or sprite AND sprite conversion is not done on the CPU AND
(flat-shading OR primitive-type is sprite)) OR point/line unscaled expansion
is requested; and the single function `IsNeeded` is evaluated at both query
sites (retrieval and attachment) of `CreateTFXPipeline`, so the two sites
cannot diverge. -/
theorem createTFXPipeline_gs_exactly_isNeeded (getVS : Nat → Handle)
    (getGS : GSSelector → Handle) (getFS : Nat → Handle)
    (vsSel : Nat) (gsSel : GSSelector) (psSel : Nat)
    (hgs : getGS gsSel ≠ 0) (d : TFXPipelineStages)
    (hok : CreateTFXPipelineStages getVS getGS getFS vsSel gsSel psSel = some d) :
    (d.gsModule.isSome = gsSel.IsNeeded) ∧
    (gsSel.IsNeeded = true ↔
      ((0 < gsSel.prim ∧ gsSel.cpu_sprite = 0 ∧ (gsSel.iip = 0 ∨ gsSel.prim = 3)) ∨
        gsSel.point = 1 ∨ gsSel.line = 1)) := by
  constructor
  · unfold CreateTFXPipelineStages at hok
    by_cases hneed : gsSel.IsNeeded
    · simp only [hneed, if_true] at hok
      have hgs' : (getGS gsSel == 0) = false := by
        simp [hgs]
      by_cases hvs : getVS vsSel == 0
      · simp [hvs] at hok
      · by_cases hfs : getFS psSel == 0
        · simp [hfs] at hok
        · simp [hvs, hfs, hgs'] at hok
          rw [← hok]
          simp [hgs, hneed]
    · simp only [hneed] at hok
      simp only [Bool.false_eq_true, if_false] at hok
      by_cases hvs : getVS vsSel == 0
      · simp [hvs] at hok
      · by_cases hfs : getFS psSel == 0
        · simp [hfs] at hok
        · simp [hvs, hfs] at hok
          rw [← hok]
          simp [hneed]
  · unfold GSSelector.IsNeeded
    constructor
    · intro h
      simp only [Bool.or_eq_true, Bool.and_eq_true, decide_eq_true_eq, beq_iff_eq] at h
      tauto
    · intro h
      simp only [Bool.or_eq_true, Bool.and_eq_true, decide_eq_true_eq, beq_iff_eq]
      tauto

/-- Witness for C8 at a concrete input: a flat-shaded line selector needs the
geometry stage and gets it attached. -/
theorem createTFXPipeline_gs_exactly_isNeeded_witness :
    ((fun _ : GSSelector => (9 : Handle)) ⟨0, 1, 0, 0, 0⟩ ≠ (0 : Handle)) ∧
    (CreateTFXPipelineStages (fun _ => 8) (fun _ => 9) (fun _ => 10) 0 ⟨0, 1, 0, 0, 0⟩ 0 =
      some ⟨8, some 9, 10⟩) ∧
    ((TFXPipelineStages.mk 8 (some 9) 10).gsModule.isSome =
      GSSelector.IsNeeded ⟨0, 1, 0, 0, 0⟩) :=
  ⟨by decide, by decide,
    (createTFXPipeline_gs_exactly_isNeeded (fun _ => 8) (fun _ => 9) (fun _ => 10)
      0 ⟨0, 1, 0, 0, 0⟩ 0 (by decide) ⟨8, some 9, 10⟩ (by decide)).1⟩


/-! ## Theorems about the dirty tracker -/

/-- C1 (failing-input evaluation): from the state `InitializeState`
establishes (every dirty bit set by `InvalidateCachedState`), one
`ApplyTFXState` followed by a second `ApplyTFXState` with no intervening
`Set*` or `InvalidateCachedState` call issues one more bind command - the
descriptor sets are re-bound - because `ApplyTFXState` clears only
`DIRTY_TFX_STATE` from `m_dirty_flags`, leaving the dynamic-offset,
utility-texture and descriptor-set bits permanently set. -/
theorem applyTFXState_second_call_rebinds :
    bindCount (ApplyTFXState 4 (ApplyTFXState 4 initialDeviceState).2).2.cmds =
      bindCount (ApplyTFXState 4 initialDeviceState).2.cmds + 1 ∧
    (ApplyTFXState 4 initialDeviceState).2.dirty_flags =
      (DIRTY_FLAG_TFX_DYNAMIC_OFFSETS ||| DIRTY_FLAG_UTILITY_TEXTURE |||
        DIRTY_FLAG_DESCRIPTOR_SETS) ∧
    ((ApplyTFXState 4 (ApplyTFXState 4 initialDeviceState).2).2.cmds.drop
        (ApplyTFXState 4 initialDeviceState).2.cmds.length).filter isTFXDescriptorBind ≠ [] := by
  refine ⟨by decide, by decide, by decide⟩

/-- C4 (failing-input evaluation): `BeginClearRenderPass` does not update
`m_current_render_pass_area`, so after a 100x100 pass is followed by a
10x10 clear pass, `CheckRenderPass` accepts a 50x50 rectangle for the open
clear pass even though it is not contained in that pass's 10x10 area - the
containment is checked against the stale area of the earlier pass. -/
theorem checkRenderPass_stale_area_after_clear :
    CheckRenderPass
        (BeginClearRenderPass
          (BeginRenderPass initialDeviceState m_utility_color_render_pass_load
            ⟨0, 0, 100, 100⟩)
          m_utility_color_render_pass_clear ⟨0, 0, 10, 10⟩ 0)
        m_utility_color_render_pass_clear ⟨0, 0, 50, 50⟩ = true ∧
    rectContains ⟨0, 0, 10, 10⟩ ⟨0, 0, 50, 50⟩ = false := by
  refine ⟨by decide, by decide⟩

/-- C6 (failing-input evaluation): when the utility descriptor pool is
exhausted inside `ApplyUtilityState` with a render pass open, the device does
flush without waiting, invalidate cached state and restart the same render
pass over the same area - but then retries `ApplyTFXState` instead of
`ApplyUtilityState` (GSDeviceVK.cpp 2016), so the call ends with the TFX
descriptor layout bound, a null utility descriptor set and no utility
descriptor bind ever recorded. -/
theorem applyUtilityState_retries_wrong_operation :
    (ApplyUtilityState 3 utilityExhaustionState).2.current_pipeline_layout =
      PipelineLayoutKind.TFX ∧
    (ApplyUtilityState 3 utilityExhaustionState).2.utility_descriptor_set = 0 ∧
    (ApplyUtilityState 3 utilityExhaustionState).2.cmds.filter isUtilityDescriptorBind = [] ∧
    (ApplyUtilityState 3 utilityExhaustionState).2.cmds.filter isTFXDescriptorBind ≠ [] ∧
    rpBoundaries (ApplyUtilityState 3 utilityExhaustionState).2.cmds =
      [VKCmd.endRenderPass,
       VKCmd.beginRenderPass m_utility_color_render_pass_load 6 ⟨0, 0, 64, 64⟩ none] ∧
    noWaitSubmitCount (ApplyUtilityState 3 utilityExhaustionState).2.cmds = 1 := by
  refine ⟨by decide, by decide, by decide, by decide, by decide, by decide⟩


/-! ## Render-pass bracketing (C3) -/

theorem rpScan_append (cs l : List VKCmd) :
    rpScan (cs ++ l) = List.foldl rpStep (rpScan cs) l := by
  simp [rpScan, List.foldl_append]

theorem rpScan_endRenderPass (s : GSDeviceState)
    (h : rpScan s.cmds = some (InRenderPass s)) :
    rpScan (EndRenderPass s).cmds = some (InRenderPass (EndRenderPass s)) := by
  unfold EndRenderPass
  cases hc : s.current_render_pass with
  | none => simpa [InRenderPass, hc] using h
  | some rp =>
    simp only [InRenderPass, hc, Option.isSome_some] at h
    simp [emit, InRenderPass, rpScan_append, h, rpStep]

theorem rpScan_beginRenderPass (s : GSDeviceState) (rp : VkRenderPassKey)
    (rect : GSVector4i) (h : rpScan s.cmds = some (InRenderPass s)) :
    rpScan (BeginRenderPass s rp rect).cmds =
      some (InRenderPass (BeginRenderPass s rp rect)) := by
  unfold BeginRenderPass
  cases hc : s.current_render_pass with
  | none =>
    simp only [InRenderPass, hc, Option.isSome_none] at h
    simp [hc, emit, InRenderPass, rpScan_append, h, rpStep]
  | some rp0 =>
    simp only [InRenderPass, hc, Option.isSome_some] at h
    simp [hc, EndRenderPass, emit, InRenderPass, rpScan_append, h, rpStep]

theorem rpScan_beginClearRenderPass (s : GSDeviceState) (rp : VkRenderPassKey)
    (rect : GSVector4i) (c : Nat) (h : rpScan s.cmds = some (InRenderPass s)) :
    rpScan (BeginClearRenderPass s rp rect c).cmds =
      some (InRenderPass (BeginClearRenderPass s rp rect c)) := by
  unfold BeginClearRenderPass
  cases hc : s.current_render_pass with
  | none =>
    simp only [InRenderPass, hc, Option.isSome_none] at h
    simp [hc, emit, InRenderPass, rpScan_append, h, rpStep]
  | some rp0 =>
    simp only [InRenderPass, hc, Option.isSome_some] at h
    simp [hc, EndRenderPass, emit, InRenderPass, rpScan_append, h, rpStep]

/-- C3: starting from any device state whose recorded command stream is
properly bracketed with the scan state matching the tracked open pass, any
sequence of `BeginRenderPass` / `BeginClearRenderPass` / `EndRenderPass`
calls keeps the stream properly bracketed: at most one render pass is ever
open in the stream, a begin is never recorded while a pass is open without
an end recorded first (`rpScan` would return `none` on a nested begin), and
an unmatched end is never recorded - in particular `EndRenderPass` with no
open pass is a no-op that records nothing and changes nothing. -/
theorem renderPass_bracketing (s : GSDeviceState) (ops : List RPOp)
    (h : rpScan s.cmds = some (InRenderPass s)) :
    rpScan (runRPOps s ops).cmds = some (InRenderPass (runRPOps s ops)) ∧
    (s.current_render_pass = none → EndRenderPass s = s) := by
  constructor
  · induction ops generalizing s with
    | nil => exact h
    | cons op rest ih =>
      cases op with
      | beginPass rp rect =>
        exact ih (BeginRenderPass s rp rect) (rpScan_beginRenderPass s rp rect h)
      | beginClear rp rect c =>
        exact ih (BeginClearRenderPass s rp rect c) (rpScan_beginClearRenderPass s rp rect c h)
      | endPass =>
        exact ih (EndRenderPass s) (rpScan_endRenderPass s h)
  · intro hc
    unfold EndRenderPass
    rw [hc]

/-- Witness for C3 at a concrete input: from the freshly initialized device,
a begin / clear-begin / end / end sequence stays properly bracketed (the
second end and the implicit end inside the second begin are handled). -/
theorem renderPass_bracketing_witness :
    (rpScan initialDeviceState.cmds = some (InRenderPass initialDeviceState)) ∧
    (rpScan (runRPOps initialDeviceState
        [RPOp.beginPass m_utility_color_render_pass_load ⟨0, 0, 64, 64⟩,
         RPOp.beginClear m_utility_color_render_pass_clear ⟨0, 0, 32, 32⟩ 0,
         RPOp.endPass, RPOp.endPass]).cmds =
      some (InRenderPass (runRPOps initialDeviceState
        [RPOp.beginPass m_utility_color_render_pass_load ⟨0, 0, 64, 64⟩,
         RPOp.beginClear m_utility_color_render_pass_clear ⟨0, 0, 32, 32⟩ 0,
         RPOp.endPass, RPOp.endPass]))) ∧
    (initialDeviceState.current_render_pass = none →
      EndRenderPass initialDeviceState = initialDeviceState) := by
  have h := renderPass_bracketing initialDeviceState
    [RPOp.beginPass m_utility_color_render_pass_load ⟨0, 0, 64, 64⟩,
     RPOp.beginClear m_utility_color_render_pass_clear ⟨0, 0, 32, 32⟩ 0,
     RPOp.endPass, RPOp.endPass] (by decide)
  exact ⟨by decide, by decide, h.2⟩


/-! ## Flush-and-retry at ring-buffer exhaustion (C5) -/

theorem submitCount_append (cs l : List VKCmd) :
    submitCount (cs ++ l) = submitCount cs + submitCount l := by
  simp [submitCount, List.filter_append]

theorem noWaitSubmitCount_append (cs l : List VKCmd) :
    noWaitSubmitCount (cs ++ l) = noWaitSubmitCount cs + noWaitSubmitCount l := by
  simp [noWaitSubmitCount, List.filter_append]

theorem endRenderPass_cmds_shape (s : GSDeviceState) :
    (EndRenderPass s).cmds = s.cmds ++ (if InRenderPass s then [VKCmd.endRenderPass] else []) := by
  unfold EndRenderPass InRenderPass
  cases s.current_render_pass <;> simp [emit]

@[simp] theorem endRenderPass_vtx (s : GSDeviceState) :
    (EndRenderPass s).vtx_reserve = s.vtx_reserve := by
  unfold EndRenderPass; cases s.current_render_pass <;> rfl

@[simp] theorem endRenderPass_idx (s : GSDeviceState) :
    (EndRenderPass s).idx_reserve = s.idx_reserve := by
  unfold EndRenderPass; cases s.current_render_pass <;> rfl

@[simp] theorem endRenderPass_vs_uni (s : GSDeviceState) :
    (EndRenderPass s).vs_uni_reserve = s.vs_uni_reserve := by
  unfold EndRenderPass; cases s.current_render_pass <;> rfl

@[simp] theorem endRenderPass_ps_uni (s : GSDeviceState) :
    (EndRenderPass s).ps_uni_reserve = s.ps_uni_reserve := by
  unfold EndRenderPass; cases s.current_render_pass <;> rfl

@[simp] theorem endRenderPass_ds_alloc (s : GSDeviceState) :
    (EndRenderPass s).ds_alloc = s.ds_alloc := by
  unfold EndRenderPass; cases s.current_render_pass <;> rfl

@[simp] theorem endRenderPass_framebuffer (s : GSDeviceState) :
    (EndRenderPass s).current_framebuffer = s.current_framebuffer := by
  unfold EndRenderPass; cases s.current_render_pass <;> rfl

@[simp] theorem endRenderPass_pass (s : GSDeviceState) :
    (EndRenderPass s).current_render_pass = none := by
  unfold EndRenderPass
  cases hc : s.current_render_pass with
  | none => exact hc
  | some rp => rfl

@[simp] theorem executeCommandBuffer_vtx (s : GSDeviceState) (w : Bool) :
    (ExecuteCommandBuffer s w).vtx_reserve = s.vtx_reserve := by
  simp [ExecuteCommandBuffer, InvalidateCachedState, emit]

@[simp] theorem executeCommandBuffer_idx (s : GSDeviceState) (w : Bool) :
    (ExecuteCommandBuffer s w).idx_reserve = s.idx_reserve := by
  simp [ExecuteCommandBuffer, InvalidateCachedState, emit]

@[simp] theorem executeCommandBuffer_vs_uni (s : GSDeviceState) (w : Bool) :
    (ExecuteCommandBuffer s w).vs_uni_reserve = s.vs_uni_reserve := by
  simp [ExecuteCommandBuffer, InvalidateCachedState, emit]

@[simp] theorem executeCommandBuffer_ps_uni (s : GSDeviceState) (w : Bool) :
    (ExecuteCommandBuffer s w).ps_uni_reserve = s.ps_uni_reserve := by
  simp [ExecuteCommandBuffer, InvalidateCachedState, emit]

theorem executeCommandBuffer_submitCount (s : GSDeviceState) (w : Bool) :
    submitCount (ExecuteCommandBuffer s w).cmds = submitCount s.cmds + 1 := by
  simp [ExecuteCommandBuffer, InvalidateCachedState, emit, endRenderPass_cmds_shape,
    submitCount_append]
  split <;> simp [submitCount, isSubmit]

theorem executeCommandBuffer_noWaitSubmitCount (s : GSDeviceState) :
    noWaitSubmitCount (ExecuteCommandBuffer s false).cmds = noWaitSubmitCount s.cmds + 1 := by
  simp [ExecuteCommandBuffer, InvalidateCachedState, emit, endRenderPass_cmds_shape,
    noWaitSubmitCount_append]
  split <;> simp [noWaitSubmitCount, isNoWaitSubmit]

@[simp] theorem setVertexBuffer_cmds (s : GSDeviceState) (b : Handle) (o : Nat) :
    (SetVertexBuffer s b o).cmds = s.cmds := by
  unfold SetVertexBuffer; split <;> rfl

@[simp] theorem setIndexBuffer_cmds (s : GSDeviceState) (b : Handle) (o ty : Nat) :
    (SetIndexBuffer s b o ty).cmds = s.cmds := by
  unfold SetIndexBuffer; split <;> rfl

/-- C5: at each of the five transient ring-buffer upload sites (vertex
upload, vertex map, index upload, vertex-uniform upload, fragment-uniform
upload), a first successful `ReserveMemory` completes the operation with no
flush; a failed `ReserveMemory` triggers exactly one flush of the command
buffer, submitted without waiting for completion, and exactly one retry
which completes the operation when it succeeds; and a failed retry takes the
fatal `pxFailRel` abort path. -/
theorem reserveFailure_flush_retry_abort
    (s : GSDeviceState) (rest : List Bool) (cb : Nat)
    (hvs : cb ≠ s.vs_cb_cache) (hps : cb ≠ s.ps_cb_cache) :
    (((IASetVertexBuffer { s with vtx_reserve := true :: rest }).isSome = true ∧
        submitCount (optCmds (IASetVertexBuffer { s with vtx_reserve := true :: rest })) =
          submitCount s.cmds) ∧
      ((IASetVertexBuffer { s with vtx_reserve := false :: true :: rest }).isSome = true ∧
        submitCount (optCmds (IASetVertexBuffer { s with vtx_reserve := false :: true :: rest })) =
          submitCount s.cmds + 1 ∧
        noWaitSubmitCount
            (optCmds (IASetVertexBuffer { s with vtx_reserve := false :: true :: rest })) =
          noWaitSubmitCount s.cmds + 1) ∧
      IASetVertexBuffer { s with vtx_reserve := false :: false :: rest } = none) ∧
    (((IAMapVertexBuffer { s with vtx_reserve := true :: rest }).isSome = true ∧
        submitCount (optCmds (IAMapVertexBuffer { s with vtx_reserve := true :: rest })) =
          submitCount s.cmds) ∧
      ((IAMapVertexBuffer { s with vtx_reserve := false :: true :: rest }).isSome = true ∧
        submitCount (optCmds (IAMapVertexBuffer { s with vtx_reserve := false :: true :: rest })) =
          submitCount s.cmds + 1 ∧
        noWaitSubmitCount
            (optCmds (IAMapVertexBuffer { s with vtx_reserve := false :: true :: rest })) =
          noWaitSubmitCount s.cmds + 1) ∧
      IAMapVertexBuffer { s with vtx_reserve := false :: false :: rest } = none) ∧
    (((IASetIndexBuffer { s with idx_reserve := true :: rest }).isSome = true ∧
        submitCount (optCmds (IASetIndexBuffer { s with idx_reserve := true :: rest })) =
          submitCount s.cmds) ∧
      ((IASetIndexBuffer { s with idx_reserve := false :: true :: rest }).isSome = true ∧
        submitCount (optCmds (IASetIndexBuffer { s with idx_reserve := false :: true :: rest })) =
          submitCount s.cmds + 1 ∧
        noWaitSubmitCount
            (optCmds (IASetIndexBuffer { s with idx_reserve := false :: true :: rest })) =
          noWaitSubmitCount s.cmds + 1) ∧
      IASetIndexBuffer { s with idx_reserve := false :: false :: rest } = none) ∧
    (((SetupVS { s with vs_uni_reserve := true :: rest } cb).isSome = true ∧
        submitCount (optCmds (SetupVS { s with vs_uni_reserve := true :: rest } cb)) =
          submitCount s.cmds) ∧
      ((SetupVS { s with vs_uni_reserve := false :: true :: rest } cb).isSome = true ∧
        submitCount (optCmds (SetupVS { s with vs_uni_reserve := false :: true :: rest } cb)) =
          submitCount s.cmds + 1 ∧
        noWaitSubmitCount
            (optCmds (SetupVS { s with vs_uni_reserve := false :: true :: rest } cb)) =
          noWaitSubmitCount s.cmds + 1) ∧
      SetupVS { s with vs_uni_reserve := false :: false :: rest } cb = none) ∧
    (((SetupPS { s with ps_uni_reserve := true :: rest } cb).isSome = true ∧
        submitCount (optCmds (SetupPS { s with ps_uni_reserve := true :: rest } cb)) =
          submitCount s.cmds) ∧
      ((SetupPS { s with ps_uni_reserve := false :: true :: rest } cb).isSome = true ∧
        submitCount (optCmds (SetupPS { s with ps_uni_reserve := false :: true :: rest } cb)) =
          submitCount s.cmds + 1 ∧
        noWaitSubmitCount
            (optCmds (SetupPS { s with ps_uni_reserve := false :: true :: rest } cb)) =
          noWaitSubmitCount s.cmds + 1) ∧
      SetupPS { s with ps_uni_reserve := false :: false :: rest } cb = none) := by
  refine ⟨⟨⟨?_, ?_⟩, ⟨?_, ?_, ?_⟩, ?_⟩, ⟨⟨?_, ?_⟩, ⟨?_, ?_, ?_⟩, ?_⟩,
    ⟨⟨?_, ?_⟩, ⟨?_, ?_, ?_⟩, ?_⟩, ⟨⟨?_, ?_⟩, ⟨?_, ?_, ?_⟩, ?_⟩,
    ⟨⟨?_, ?_⟩, ⟨?_, ?_, ?_⟩, ?_⟩⟩ <;>
    simp [IASetVertexBuffer, IAMapVertexBuffer, IASetIndexBuffer, SetupVS, SetupPS,
      streamReserve, optCmds, hvs, hps, executeCommandBuffer_submitCount,
      executeCommandBuffer_noWaitSubmitCount]

/-- Witness for C5 at a concrete input. -/
theorem reserveFailure_flush_retry_abort_witness :
    ((1 : Nat) ≠ initialDeviceState.vs_cb_cache) ∧
    ((1 : Nat) ≠ initialDeviceState.ps_cb_cache) ∧
    IASetVertexBuffer { initialDeviceState with vtx_reserve := false :: false :: [] } = none := by
  refine ⟨by decide, by decide, ?_⟩
  exact (reserveFailure_flush_retry_abort initialDeviceState [] 1
    (by decide) (by decide)).1.2.2


/-! ## Texture readback (C10) -/

/-- C10: `ReadbackTexture` rejects a region larger than the readback staging
buffer up front, returning false with no commands recorded and no layout
touched; on success it moves the copied subresource to transfer-src only
around the copy - the transition back is recorded before the submit - so the
tracked layout after the call equals the tracked layout before it, and no
transition at all is recorded when the texture already is in transfer-src. -/
theorem readbackTexture_restores_layout
    (s : GSDeviceState) (src : GSTextureState) (rect : GSVector4i) (level : Nat) :
    (rect.width.toNat * GetTexelSize src.format * rect.height.toNat >
        s.readback_staging_size →
      ReadbackTexture s src rect level = (false, s, src)) ∧
    (¬(rect.width.toNat * GetTexelSize src.format * rect.height.toNat >
        s.readback_staging_size) →
      (ReadbackTexture s src rect level).1 = true ∧
      (ReadbackTexture s src rect level).2.2.layout = src.layout ∧
      (ReadbackTexture s src rect level).2.1.cmds = s.cmds ++
        (if InRenderPass s then [VKCmd.endRenderPass] else []) ++
        (if src.layout = VkImageLayout.transferSrc then []
          else [VKCmd.imageBarrier src.id level src.layout VkImageLayout.transferSrc]) ++
        [VKCmd.copyImageToBuffer src.id rect level] ++
        (if src.layout = VkImageLayout.transferSrc then []
          else [VKCmd.imageBarrier src.id level VkImageLayout.transferSrc src.layout]) ++
        [VKCmd.submit true]) := by
  constructor
  · intro h
    unfold ReadbackTexture
    rw [if_pos h]
  · intro h
    unfold ReadbackTexture
    rw [if_neg h]
    by_cases hl : src.layout = VkImageLayout.transferSrc
    · simp [hl, TransitionSubresourcesToLayout, emit, ExecuteCommandBuffer,
        InvalidateCachedState, endRenderPass_cmds_shape, InRenderPass]
    · have hl2 : (src.layout != VkImageLayout.transferSrc) = true := by
        simp [hl]
      simp [hl, hl2, TransitionSubresourcesToLayout, emit, ExecuteCommandBuffer,
        InvalidateCachedState, endRenderPass_cmds_shape, InRenderPass]

/-- Witness for C10 at concrete inputs: a 64x64 RGBA8 readback overflows the
1024-byte staging buffer and is rejected unchanged, while an 8x8 readback of
a shader-read texture succeeds with the layout restored. -/
theorem readbackTexture_restores_layout_witness :
    (((⟨0, 0, 64, 64⟩ : GSVector4i).width.toNat * GetTexelSize RT_FORMAT *
        (⟨0, 0, 64, 64⟩ : GSVector4i).height.toNat >
        initialDeviceState.readback_staging_size) ∧
      ReadbackTexture initialDeviceState
        ⟨11, GSTextureType.RenderTarget, RT_FORMAT, 64, 64, false, 6, 12,
          VkImageLayout.shaderReadOnly⟩ ⟨0, 0, 64, 64⟩ 0 =
        (false, initialDeviceState,
          ⟨11, GSTextureType.RenderTarget, RT_FORMAT, 64, 64, false, 6, 12,
            VkImageLayout.shaderReadOnly⟩)) ∧
    (¬((⟨0, 0, 8, 8⟩ : GSVector4i).width.toNat * GetTexelSize RT_FORMAT *
        (⟨0, 0, 8, 8⟩ : GSVector4i).height.toNat >
        initialDeviceState.readback_staging_size) ∧
      (ReadbackTexture initialDeviceState
        ⟨11, GSTextureType.RenderTarget, RT_FORMAT, 64, 64, false, 6, 12,
          VkImageLayout.shaderReadOnly⟩ ⟨0, 0, 8, 8⟩ 0).2.2.layout =
        VkImageLayout.shaderReadOnly) := by
  constructor
  · refine ⟨by decide, ?_⟩
    exact (readbackTexture_restores_layout initialDeviceState
      ⟨11, GSTextureType.RenderTarget, RT_FORMAT, 64, 64, false, 6, 12,
        VkImageLayout.shaderReadOnly⟩ ⟨0, 0, 64, 64⟩ 0).1 (by decide)
  · refine ⟨by decide, ?_⟩
    exact (readbackTexture_restores_layout initialDeviceState
      ⟨11, GSTextureType.RenderTarget, RT_FORMAT, 64, 64, false, 6, 12,
        VkImageLayout.shaderReadOnly⟩ ⟨0, 0, 8, 8⟩ 0).2 (by decide) |>.2.1


/-! ## Command-trace and field-preservation lemmas for the stretch-rect path
(C9) -/

theorem rpBoundaries_append (cs l : List VKCmd) :
    rpBoundaries (cs ++ l) = rpBoundaries cs ++ rpBoundaries l := by
  simp [rpBoundaries, List.filter_append]

@[simp] theorem emit_cmds (s : GSDeviceState) (c : VKCmd) :
    (emit s c).cmds = s.cmds ++ [c] := rfl

@[simp] theorem emit_pass (s : GSDeviceState) (c : VKCmd) :
    (emit s c).current_render_pass = s.current_render_pass := rfl

@[simp] theorem emit_fb (s : GSDeviceState) (c : VKCmd) :
    (emit s c).current_framebuffer = s.current_framebuffer := rfl

@[simp] theorem emit_ds (s : GSDeviceState) (c : VKCmd) :
    (emit s c).ds_alloc = s.ds_alloc := rfl

@[simp] theorem emit_vtx (s : GSDeviceState) (c : VKCmd) :
    (emit s c).vtx_reserve = s.vtx_reserve := rfl

@[simp] theorem condEmit_pass (b : Bool) (s : GSDeviceState) (c : VKCmd) :
    (condEmit b s c).current_render_pass = s.current_render_pass := by
  cases b <;> rfl

@[simp] theorem condEmit_fb (b : Bool) (s : GSDeviceState) (c : VKCmd) :
    (condEmit b s c).current_framebuffer = s.current_framebuffer := by
  cases b <;> rfl

@[simp] theorem condEmit_ds (b : Bool) (s : GSDeviceState) (c : VKCmd) :
    (condEmit b s c).ds_alloc = s.ds_alloc := by
  cases b <;> rfl

@[simp] theorem condEmit_vtx (b : Bool) (s : GSDeviceState) (c : VKCmd) :
    (condEmit b s c).vtx_reserve = s.vtx_reserve := by
  cases b <;> rfl

@[simp] theorem setVertexBuffer_pass (s : GSDeviceState) (b : Handle) (o : Nat) :
    (SetVertexBuffer s b o).current_render_pass = s.current_render_pass := by
  unfold SetVertexBuffer; split <;> rfl

@[simp] theorem setVertexBuffer_fb (s : GSDeviceState) (b : Handle) (o : Nat) :
    (SetVertexBuffer s b o).current_framebuffer = s.current_framebuffer := by
  unfold SetVertexBuffer; split <;> rfl

@[simp] theorem setVertexBuffer_ds (s : GSDeviceState) (b : Handle) (o : Nat) :
    (SetVertexBuffer s b o).ds_alloc = s.ds_alloc := by
  unfold SetVertexBuffer; split <;> rfl

@[simp] theorem setPipeline_pass (s : GSDeviceState) (p : Handle) :
    (SetPipeline s p).current_render_pass = s.current_render_pass := by
  unfold SetPipeline; split <;> rfl

@[simp] theorem setPipeline_fb (s : GSDeviceState) (p : Handle) :
    (SetPipeline s p).current_framebuffer = s.current_framebuffer := by
  unfold SetPipeline; split <;> rfl

@[simp] theorem setPipeline_ds (s : GSDeviceState) (p : Handle) :
    (SetPipeline s p).ds_alloc = s.ds_alloc := by
  unfold SetPipeline; split <;> rfl

@[simp] theorem setPipeline_vtx (s : GSDeviceState) (p : Handle) :
    (SetPipeline s p).vtx_reserve = s.vtx_reserve := by
  unfold SetPipeline; split <;> rfl

@[simp] theorem setPipeline_cmds (s : GSDeviceState) (p : Handle) :
    (SetPipeline s p).cmds = s.cmds := by
  unfold SetPipeline; split <;> rfl

@[simp] theorem setViewport2_pass (s : GSDeviceState) (v : GSVector4i) :
    (SetViewport s v).current_render_pass = s.current_render_pass := by
  unfold SetViewport; split <;> rfl

@[simp] theorem setViewport2_fb (s : GSDeviceState) (v : GSVector4i) :
    (SetViewport s v).current_framebuffer = s.current_framebuffer := by
  unfold SetViewport; split <;> rfl

@[simp] theorem setViewport2_ds (s : GSDeviceState) (v : GSVector4i) :
    (SetViewport s v).ds_alloc = s.ds_alloc := by
  unfold SetViewport; split <;> rfl

@[simp] theorem setViewport2_vtx (s : GSDeviceState) (v : GSVector4i) :
    (SetViewport s v).vtx_reserve = s.vtx_reserve := by
  unfold SetViewport; split <;> rfl

@[simp] theorem setViewport2_cmds (s : GSDeviceState) (v : GSVector4i) :
    (SetViewport s v).cmds = s.cmds := by
  unfold SetViewport; split <;> rfl

@[simp] theorem setScissor2_pass (s : GSDeviceState) (v : GSVector4i) :
    (SetScissor s v).current_render_pass = s.current_render_pass := by
  unfold SetScissor; split <;> rfl

@[simp] theorem setScissor2_fb (s : GSDeviceState) (v : GSVector4i) :
    (SetScissor s v).current_framebuffer = s.current_framebuffer := by
  unfold SetScissor; split <;> rfl

@[simp] theorem setScissor2_ds (s : GSDeviceState) (v : GSVector4i) :
    (SetScissor s v).ds_alloc = s.ds_alloc := by
  unfold SetScissor; split <;> rfl

@[simp] theorem setScissor2_vtx (s : GSDeviceState) (v : GSVector4i) :
    (SetScissor s v).vtx_reserve = s.vtx_reserve := by
  unfold SetScissor; split <;> rfl

@[simp] theorem setScissor2_cmds (s : GSDeviceState) (v : GSVector4i) :
    (SetScissor s v).cmds = s.cmds := by
  unfold SetScissor; split <;> rfl

@[simp] theorem setVertexBuffer_vtx (s : GSDeviceState) (b : Handle) (o : Nat) :
    (SetVertexBuffer s b o).vtx_reserve = s.vtx_reserve := by
  unfold SetVertexBuffer; split <;> rfl

@[simp] theorem transitionToLayout_fst_pass (s : GSDeviceState) (t : GSTextureState)
    (l : VkImageLayout) : (TransitionToLayout s t l).1.current_render_pass = s.current_render_pass := by
  unfold TransitionToLayout; split <;> rfl

@[simp] theorem transitionToLayout_fst_fb (s : GSDeviceState) (t : GSTextureState)
    (l : VkImageLayout) : (TransitionToLayout s t l).1.current_framebuffer = s.current_framebuffer := by
  unfold TransitionToLayout; split <;> rfl

@[simp] theorem transitionToLayout_fst_ds (s : GSDeviceState) (t : GSTextureState)
    (l : VkImageLayout) : (TransitionToLayout s t l).1.ds_alloc = s.ds_alloc := by
  unfold TransitionToLayout; split <;> rfl

@[simp] theorem transitionToLayout_fst_vtx (s : GSDeviceState) (t : GSTextureState)
    (l : VkImageLayout) : (TransitionToLayout s t l).1.vtx_reserve = s.vtx_reserve := by
  unfold TransitionToLayout; split <;> rfl

theorem transitionToLayout_fst_cmds (s : GSDeviceState) (t : GSTextureState)
    (l : VkImageLayout) : (TransitionToLayout s t l).1.cmds =
      s.cmds ++ (if t.layout = l then [] else [VKCmd.imageBarrier t.id 0 t.layout l]) := by
  unfold TransitionToLayout
  by_cases h : t.layout = l <;> simp [h]

theorem transitionToLayout_rpB (s : GSDeviceState) (t : GSTextureState) (l : VkImageLayout) :
    rpBoundaries (TransitionToLayout s t l).1.cmds = rpBoundaries s.cmds := by
  rw [transitionToLayout_fst_cmds, rpBoundaries_append]
  split <;> simp [rpBoundaries, isRPBoundary]

@[simp] theorem transitionToLayout_snd_id (s : GSDeviceState) (t : GSTextureState)
    (l : VkImageLayout) : (TransitionToLayout s t l).2.id = t.id := by
  unfold TransitionToLayout; split <;> rfl

@[simp] theorem transitionToLayout_snd_ty (s : GSDeviceState) (t : GSTextureState)
    (l : VkImageLayout) : (TransitionToLayout s t l).2.ty = t.ty := by
  unfold TransitionToLayout; split <;> rfl

@[simp] theorem transitionToLayout_snd_format (s : GSDeviceState) (t : GSTextureState)
    (l : VkImageLayout) : (TransitionToLayout s t l).2.format = t.format := by
  unfold TransitionToLayout; split <;> rfl

@[simp] theorem transitionToLayout_snd_width (s : GSDeviceState) (t : GSTextureState)
    (l : VkImageLayout) : (TransitionToLayout s t l).2.width = t.width := by
  unfold TransitionToLayout; split <;> rfl

@[simp] theorem transitionToLayout_snd_height (s : GSDeviceState) (t : GSTextureState)
    (l : VkImageLayout) : (TransitionToLayout s t l).2.height = t.height := by
  unfold TransitionToLayout; split <;> rfl

@[simp] theorem transitionToLayout_snd_discarded (s : GSDeviceState) (t : GSTextureState)
    (l : VkImageLayout) : (TransitionToLayout s t l).2.discarded = t.discarded := by
  unfold TransitionToLayout; split <;> rfl

@[simp] theorem transitionToLayout_snd_framebuffer (s : GSDeviceState) (t : GSTextureState)
    (l : VkImageLayout) : (TransitionToLayout s t l).2.framebuffer = t.framebuffer := by
  unfold TransitionToLayout; split <;> rfl

@[simp] theorem transitionToLayout_snd_view (s : GSDeviceState) (t : GSTextureState)
    (l : VkImageLayout) : (TransitionToLayout s t l).2.view = t.view := by
  unfold TransitionToLayout; split <;> rfl

@[simp] theorem transitionToLayout_snd_layout (s : GSDeviceState) (t : GSTextureState)
    (l : VkImageLayout) : (TransitionToLayout s t l).2.layout = l := by
  unfold TransitionToLayout
  by_cases h : t.layout = l <;> simp [h]

@[simp] theorem setUtilityTexture_pass (s : GSDeviceState) (t : GSTextureState)
    (smp : Handle) : (SetUtilityTexture s (some t) smp).1.current_render_pass = s.current_render_pass := by
  simp only [SetUtilityTexture]
  split <;> simp

@[simp] theorem setUtilityTexture_fb (s : GSDeviceState) (t : GSTextureState)
    (smp : Handle) : (SetUtilityTexture s (some t) smp).1.current_framebuffer = s.current_framebuffer := by
  simp only [SetUtilityTexture]
  split <;> simp

@[simp] theorem setUtilityTexture_ds (s : GSDeviceState) (t : GSTextureState)
    (smp : Handle) : (SetUtilityTexture s (some t) smp).1.ds_alloc = s.ds_alloc := by
  simp only [SetUtilityTexture]
  split <;> simp

@[simp] theorem setUtilityTexture_vtx (s : GSDeviceState) (t : GSTextureState)
    (smp : Handle) : (SetUtilityTexture s (some t) smp).1.vtx_reserve = s.vtx_reserve := by
  simp only [SetUtilityTexture]
  split <;> simp

theorem setUtilityTexture_rpB (s : GSDeviceState) (t : GSTextureState) (smp : Handle) :
    rpBoundaries (SetUtilityTexture s (some t) smp).1.cmds = rpBoundaries s.cmds := by
  simp only [SetUtilityTexture]
  split <;> simp [transitionToLayout_rpB]

@[simp] theorem allocateDescriptorSet_pass (s : GSDeviceState) :
    (AllocateDescriptorSet s).2.current_render_pass = s.current_render_pass := by
  unfold AllocateDescriptorSet
  cases h : s.ds_alloc with
  | nil => rfl
  | cons b r => cases b <;> rfl

@[simp] theorem allocateDescriptorSet_fb (s : GSDeviceState) :
    (AllocateDescriptorSet s).2.current_framebuffer = s.current_framebuffer := by
  unfold AllocateDescriptorSet
  cases h : s.ds_alloc with
  | nil => rfl
  | cons b r => cases b <;> rfl

@[simp] theorem allocateDescriptorSet_vtx (s : GSDeviceState) :
    (AllocateDescriptorSet s).2.vtx_reserve = s.vtx_reserve := by
  unfold AllocateDescriptorSet
  cases h : s.ds_alloc with
  | nil => rfl
  | cons b r => cases b <;> rfl

@[simp] theorem allocateDescriptorSet_cmds (s : GSDeviceState) :
    (AllocateDescriptorSet s).2.cmds = s.cmds := by
  unfold AllocateDescriptorSet
  cases h : s.ds_alloc with
  | nil => rfl
  | cons b r => cases b <;> rfl


theorem rpB_condEmit (b : Bool) (s : GSDeviceState) (c : VKCmd)
    (h : isRPBoundary c = false) :
    rpBoundaries (condEmit b s c).cmds = rpBoundaries s.cmds := by
  cases b <;> simp [condEmit, rpBoundaries, List.filter_append, h]

theorem emit_pfx (s : GSDeviceState) (c : VKCmd) (l : List VKCmd)
    (h : l <+: s.cmds) : l <+: (emit s c).cmds :=
  h.trans ⟨[c], rfl⟩

theorem condEmit_pfx (b : Bool) (s : GSDeviceState) (c : VKCmd) (l : List VKCmd)
    (h : l <+: s.cmds) : l <+: (condEmit b s c).cmds := by
  cases b
  · exact h
  · exact emit_pfx s c l h

@[simp] theorem applyBaseState_pass (f : Nat) (s : GSDeviceState) :
    (ApplyBaseState f s).current_render_pass = s.current_render_pass := by
  simp [ApplyBaseState]

@[simp] theorem applyBaseState_fb (f : Nat) (s : GSDeviceState) :
    (ApplyBaseState f s).current_framebuffer = s.current_framebuffer := by
  simp [ApplyBaseState]

@[simp] theorem applyBaseState_ds (f : Nat) (s : GSDeviceState) :
    (ApplyBaseState f s).ds_alloc = s.ds_alloc := by
  simp [ApplyBaseState]

@[simp] theorem applyBaseState_vtx (f : Nat) (s : GSDeviceState) :
    (ApplyBaseState f s).vtx_reserve = s.vtx_reserve := by
  simp [ApplyBaseState]

theorem applyBaseState_rpB (f : Nat) (s : GSDeviceState) :
    rpBoundaries (ApplyBaseState f s).cmds = rpBoundaries s.cmds := by
  simp [ApplyBaseState, rpB_condEmit, isRPBoundary]

theorem applyBaseState_pfx (f : Nat) (s : GSDeviceState) (l : List VKCmd)
    (h : l <+: s.cmds) : l <+: (ApplyBaseState f s).cmds := by
  unfold ApplyBaseState
  exact condEmit_pfx _ _ _ _ (condEmit_pfx _ _ _ _ (condEmit_pfx _ _ _ _
    (condEmit_pfx _ _ _ _ (condEmit_pfx _ _ _ _ (condEmit_pfx _ _ _ _ h)))))

@[simp] theorem applyUtilityFinish_pass (f : Nat) (s : GSDeviceState) :
    (applyUtilityFinish f s).current_render_pass = s.current_render_pass := by
  unfold applyUtilityFinish
  split <;> simp

@[simp] theorem applyUtilityFinish_vtx (f : Nat) (s : GSDeviceState) :
    (applyUtilityFinish f s).vtx_reserve = s.vtx_reserve := by
  unfold applyUtilityFinish
  split <;> simp

theorem applyUtilityFinish_rpB (f : Nat) (s : GSDeviceState) :
    rpBoundaries (applyUtilityFinish f s).cmds = rpBoundaries s.cmds := by
  unfold applyUtilityFinish
  split
  · rw [applyBaseState_rpB]
    simp [rpBoundaries, List.filter_append, isRPBoundary]
  · exact applyBaseState_rpB f s

theorem applyUtilityFinish_pfx (f : Nat) (s : GSDeviceState) (l : List VKCmd)
    (h : l <+: s.cmds) : l <+: (applyUtilityFinish f s).cmds := by
  simp only [applyUtilityFinish]
  split
  · exact applyBaseState_pfx _ _ _ (emit_pfx _ _ _ h)
  · exact applyBaseState_pfx _ _ _ h

theorem allocateDescriptorSet_success (s : GSDeviceState) (r : List Bool)
    (hd : s.ds_alloc = true :: r) :
    AllocateDescriptorSet s =
      (s.next_handle + 1, { s with ds_alloc := r, next_handle := s.next_handle + 1 }) := by
  unfold AllocateDescriptorSet
  rw [hd]

theorem applyUtilityStateOnce_success (s : GSDeviceState) (r : List Bool)
    (hd : s.ds_alloc = true :: r) :
    ∃ s2, ApplyUtilityStateOnce s = ApplyStep.done true s2 ∧
      rpBoundaries s2.cmds = rpBoundaries s.cmds ∧
      s2.current_render_pass = s.current_render_pass ∧
      s.cmds <+: s2.cmds := by
  simp only [ApplyUtilityStateOnce]
  split
  · exact ⟨s, rfl, rfl, rfl, List.prefix_rfl⟩
  · split
    · rw [allocateDescriptorSet_success _ r (by simp [hd])]
      simp only [beq_iff_eq, Nat.succ_ne_zero, if_false]
      refine ⟨_, rfl, ?_, ?_, ?_⟩
      · rw [applyUtilityFinish_rpB]
      · rw [applyUtilityFinish_pass]
      · exact applyUtilityFinish_pfx _ _ _ List.prefix_rfl
    · refine ⟨_, rfl, ?_, ?_, ?_⟩
      · rw [applyUtilityFinish_rpB]
      · rw [applyUtilityFinish_pass]
      · exact applyUtilityFinish_pfx _ _ _ List.prefix_rfl

theorem applyUtilityState_success_props (fuel : Nat) (s : GSDeviceState) (r : List Bool)
    (hd : s.ds_alloc = true :: r) :
    rpBoundaries (ApplyUtilityState fuel s).2.cmds = rpBoundaries s.cmds ∧
    (ApplyUtilityState fuel s).2.current_render_pass = s.current_render_pass ∧
    s.cmds <+: (ApplyUtilityState fuel s).2.cmds := by
  obtain ⟨s2, h1, h2, h3, h4⟩ := applyUtilityStateOnce_success s r hd
  unfold ApplyUtilityState
  simp only [h1]
  exact ⟨h2, h3, h4⟩

theorem endRenderPass_noop (s : GSDeviceState) (h : s.current_render_pass = none) :
    EndRenderPass s = s := by
  unfold EndRenderPass
  rw [h]

theorem endRenderPass_pfx (s : GSDeviceState) (l : List VKCmd) (h : l <+: s.cmds) :
    l <+: (EndRenderPass s).cmds := by
  unfold EndRenderPass
  cases s.current_render_pass
  · exact h
  · exact h.trans ⟨[VKCmd.endRenderPass], rfl⟩

theorem beginRenderPass_closed_cmds (s : GSDeviceState) (rp : VkRenderPassKey)
    (rect : GSVector4i) (h : s.current_render_pass = none) :
    (BeginRenderPass s rp rect).cmds =
      s.cmds ++ [VKCmd.beginRenderPass rp s.current_framebuffer rect none] := by
  unfold BeginRenderPass
  simp [h]

@[simp] theorem beginRenderPass_pass (s : GSDeviceState) (rp : VkRenderPassKey)
    (rect : GSVector4i) : (BeginRenderPass s rp rect).current_render_pass = some rp := by
  unfold BeginRenderPass
  split <;> simp

@[simp] theorem beginRenderPass_fb (s : GSDeviceState) (rp : VkRenderPassKey)
    (rect : GSVector4i) :
    (BeginRenderPass s rp rect).current_framebuffer = s.current_framebuffer := by
  unfold BeginRenderPass
  split <;> simp

@[simp] theorem beginRenderPass_ds (s : GSDeviceState) (rp : VkRenderPassKey)
    (rect : GSVector4i) : (BeginRenderPass s rp rect).ds_alloc = s.ds_alloc := by
  unfold BeginRenderPass
  split <;> simp

@[simp] theorem beginRenderPass_vtx (s : GSDeviceState) (rp : VkRenderPassKey)
    (rect : GSVector4i) : (BeginRenderPass s rp rect).vtx_reserve = s.vtx_reserve := by
  unfold BeginRenderPass
  split <;> simp

theorem setFramebuffer_closed_cmds (s : GSDeviceState) (fb : Handle)
    (h : s.current_render_pass = none) : (SetFramebuffer s fb).cmds = s.cmds := by
  unfold SetFramebuffer
  split
  · rfl
  · rw [endRenderPass_noop s h]

theorem setFramebuffer_fb (s : GSDeviceState) (fb : Handle) :
    (SetFramebuffer s fb).current_framebuffer = fb := by
  unfold SetFramebuffer
  split
  · next heq => exact eq_of_beq heq
  · rfl

theorem setFramebuffer_closed_pass (s : GSDeviceState) (fb : Handle)
    (h : s.current_render_pass = none) : (SetFramebuffer s fb).current_render_pass = none := by
  unfold SetFramebuffer
  split
  · exact h
  · rw [endRenderPass_noop s h]; exact h

@[simp] theorem setFramebuffer_ds (s : GSDeviceState) (fb : Handle) :
    (SetFramebuffer s fb).ds_alloc = s.ds_alloc := by
  unfold SetFramebuffer
  split
  · rfl
  · simp

@[simp] theorem setFramebuffer_vtx (s : GSDeviceState) (fb : Handle) :
    (SetFramebuffer s fb).vtx_reserve = s.vtx_reserve := by
  unfold SetFramebuffer
  split
  · rfl
  · simp

theorem iaSetVertexBuffer_success (s : GSDeviceState) (r : List Bool)
    (hv : s.vtx_reserve = true :: r) :
    IASetVertexBuffer s =
      some (SetVertexBuffer { s with vtx_reserve := r } vertexStreamBufferHandle 0) := by
  unfold IASetVertexBuffer
  rw [hv]
  simp [streamReserve]

theorem drawStretchRect_success_props (fuel : Nat) (s : GSDeviceState)
    (r1 : List Bool) (r2 : List Bool)
    (hv : s.vtx_reserve = true :: r1) (hd : s.ds_alloc = true :: r2) :
    ∃ s2, DrawStretchRect fuel s = some s2 ∧
      rpBoundaries s2.cmds = rpBoundaries s.cmds ∧
      s2.current_render_pass = s.current_render_pass ∧
      s.cmds <+: s2.cmds := by
  unfold DrawStretchRect
  rw [iaSetVertexBuffer_success s r1 hv]
  simp only []
  set s1 := SetVertexBuffer { s with vtx_reserve := r1 } vertexStreamBufferHandle 0 with hs1
  have hd1 : s1.ds_alloc = true :: r2 := by
    rw [hs1]; simp [hd]
  have hprops := applyUtilityState_success_props fuel s1 r2 hd1
  have hcmds1 : s1.cmds = s.cmds := by rw [hs1]; simp
  have hpass1 : s1.current_render_pass = s.current_render_pass := by rw [hs1]; simp
  rcases hP : ApplyUtilityState fuel s1 with ⟨ok, s2⟩
  rw [hP] at hprops
  simp only at hprops
  have hpre : s.cmds <+: s2.cmds := by rw [← hcmds1]; exact hprops.2.2
  cases ok
  · exact ⟨s2, rfl, by rw [hprops.1, hcmds1], by rw [hprops.2.1, hpass1], hpre⟩
  · refine ⟨emit s2 VKCmd.draw, rfl, ?_, ?_, ?_⟩
    · rw [emit_cmds, rpBoundaries_append, hprops.1, hcmds1]
      simp [rpBoundaries, isRPBoundary]
    · rw [emit_pass, hprops.2.1, hpass1]
    · exact emit_pfx _ _ _ hpre


@[simp] theorem setUtilityTexture_cmds (s : GSDeviceState) (t : GSTextureState)
    (smp : Handle) : (SetUtilityTexture s (some t) smp).1.cmds =
      (TransitionToLayout s t VkImageLayout.shaderReadOnly).1.cmds := by
  simp only [SetUtilityTexture]
  split <;> rfl

/-- Begin the chosen pass over the full target, set viewport/scissor, draw
the quad, end the pass: the render-pass boundary commands this appends are
exactly one begin (over the current framebuffer and the given area) and one
end. -/
theorem beginDrawEnd_props (fuel : Nat) (s3 : GSDeviceState) (rp : VkRenderPassKey)
    (rc : GSVector4i) (vrest drest : List Bool)
    (hv3 : s3.vtx_reserve = true :: vrest) (hd3 : s3.ds_alloc = true :: drest)
    (hpass3 : s3.current_render_pass = none) :
    ∃ s6, DrawStretchRect fuel (SetViewportAndScissor (BeginRenderPass s3 rp rc) rc) =
        some s6 ∧
      rpBoundaries (EndRenderPass s6).cmds = rpBoundaries s3.cmds ++
        [VKCmd.beginRenderPass rp s3.current_framebuffer rc none, VKCmd.endRenderPass] ∧
      s3.cmds <+: (EndRenderPass s6).cmds := by
  have h4cmds := beginRenderPass_closed_cmds s3 rp rc hpass3
  have hv5 : (SetViewportAndScissor (BeginRenderPass s3 rp rc) rc).vtx_reserve =
      true :: vrest := by simp [SetViewportAndScissor, hv3]
  have hd5 : (SetViewportAndScissor (BeginRenderPass s3 rp rc) rc).ds_alloc =
      true :: drest := by simp [SetViewportAndScissor, hd3]
  obtain ⟨s6, hdraw, hrpb, hpass6, hpre6⟩ :=
    drawStretchRect_success_props fuel _ vrest drest hv5 hd5
  refine ⟨s6, hdraw, ?_, ?_⟩
  · have h6pass : s6.current_render_pass = some rp := by
      rw [hpass6]; simp [SetViewportAndScissor]
    have hend : (EndRenderPass s6).cmds = s6.cmds ++ [VKCmd.endRenderPass] := by
      rw [endRenderPass_cmds_shape, InRenderPass, h6pass]
      rfl
    rw [hend, rpBoundaries_append, hrpb]
    have h5cmds : (SetViewportAndScissor (BeginRenderPass s3 rp rc) rc).cmds =
        s3.cmds ++ [VKCmd.beginRenderPass rp s3.current_framebuffer rc none] := by
      simp [SetViewportAndScissor, h4cmds]
    rw [h5cmds, rpBoundaries_append]
    simp [rpBoundaries, isRPBoundary, List.append_assoc]
  · apply endRenderPass_pfx
    have : s3.cmds <+: (SetViewportAndScissor (BeginRenderPass s3 rp rc) rc).cmds := by
      rw [show (SetViewportAndScissor (BeginRenderPass s3 rp rc) rc).cmds =
          (BeginRenderPass s3 rp rc).cmds by simp [SetViewportAndScissor]]
      rw [h4cmds]
      exact ⟨_, rfl⟩
    exact this.trans hpre6


/-- C9: `DoStretchRect` takes the fast path - no render pass ended or
(re)opened - exactly when the destination is null or the destination
framebuffer is the currently bound one with a pass already open; otherwise it
ends any open pass, transitions the destination to its attachment layout,
and opens one fresh pass over the full destination extent whose load op is
the discarding one exactly when the destination was marked discarded or the
destination rectangle covers the full extent, ending it after the draw.
(Oracle hypotheses: the vertex-buffer reservation and any descriptor-set
allocation succeed, i.e. no mid-draw exhaustion recovery fires.) -/
theorem doStretchRect_render_pass_policy
    (fuel : Nat) (s : GSDeviceState) (sTex : GSTextureState) (dTex : Option GSTextureState)
    (dRect : GSVector4i) (pipeline : Handle) (linear : Bool) (vrest drest : List Bool)
    (hv : s.vtx_reserve = true :: vrest) (hd : s.ds_alloc = true :: drest) :
    ((dTex = none ∨ ∃ d, dTex = some d ∧ InRenderPass s = true ∧
        s.current_framebuffer = d.framebuffer) →
      ∃ out, DoStretchRect fuel s sTex dTex dRect pipeline linear = some out ∧
        rpBoundaries out.1.cmds = rpBoundaries s.cmds) ∧
    (∀ d, dTex = some d →
      ¬(InRenderPass s = true ∧ s.current_framebuffer = d.framebuffer) →
      d.framebuffer ≠ 0 →
      ∃ out rp, DoStretchRect fuel s sTex dTex dRect pipeline linear = some out ∧
        rpBoundaries out.1.cmds = rpBoundaries s.cmds ++
          (if InRenderPass s then [VKCmd.endRenderPass] else []) ++
          [VKCmd.beginRenderPass rp d.framebuffer ⟨0, 0, d.width, d.height⟩ none,
            VKCmd.endRenderPass] ∧
        rp.loadOp = (if (d.discarded || dRect == (⟨0, 0, d.width, d.height⟩ : GSVector4i))
          then VkAttachmentLoadOp.dontCare else VkAttachmentLoadOp.load) ∧
        (d.layout ≠ attachmentLayoutFor d.ty →
          VKCmd.imageBarrier d.id 0 d.layout (attachmentLayoutFor d.ty) ∈ out.1.cmds)) := by
  constructor
  · -- fast path
    intro hfast
    have hred : DoStretchRect fuel s sTex dTex dRect pipeline linear =
        (match DrawStretchRect fuel
            (SetPipeline (SetUtilityTexture s (some sTex)
              (if linear then linearSamplerHandle else pointSamplerHandle)).1 pipeline) with
          | none => none
          | some s2 => some (s2, ((SetUtilityTexture s (some sTex)
              (if linear then linearSamplerHandle else pointSamplerHandle)).2).getD sTex,
              dTex)) := by
      rcases hfast with h | ⟨d, hdt, hin, hfb⟩
      · subst h
        simp [DoStretchRect]
      · subst hdt
        simp [DoStretchRect, hin, hfb]
    have hv2 : (SetPipeline (SetUtilityTexture s (some sTex)
        (if linear then linearSamplerHandle else pointSamplerHandle)).1
          pipeline).vtx_reserve = true :: vrest := by simp [hv]
    have hd2 : (SetPipeline (SetUtilityTexture s (some sTex)
        (if linear then linearSamplerHandle else pointSamplerHandle)).1
          pipeline).ds_alloc = true :: drest := by simp [hd]
    obtain ⟨s3, hdraw, hrpb, hpass3, hpre3⟩ :=
      drawStretchRect_success_props fuel _ vrest drest hv2 hd2
    rw [hred, hdraw]
    refine ⟨_, rfl, ?_⟩
    rw [hrpb]
    rw [show (SetPipeline (SetUtilityTexture s (some sTex)
        (if linear then linearSamplerHandle else pointSamplerHandle)).1 pipeline).cmds =
      (SetUtilityTexture s (some sTex)
        (if linear then linearSamplerHandle else pointSamplerHandle)).1.cmds by simp]
    exact setUtilityTexture_rpB s sTex _
  · -- slow path
    intro d hdt hnot hfb0
    subst hdt
    have hfb1 : (d.framebuffer == 0) = false := by
      simp [hfb0]
    have hcond : (InRenderPass s && (s.current_framebuffer == d.framebuffer)) = false := by
      cases hIn : InRenderPass s
      · simp
      · have hne : s.current_framebuffer ≠ d.framebuffer := fun he => hnot ⟨hIn, he⟩
        simp [hne]
    have hred : DoStretchRect fuel s sTex (some d) dRect pipeline linear =
        (match DrawStretchRect fuel (SetViewportAndScissor (BeginRenderPass
            (SetFramebuffer (SetPipeline (SetUtilityTexture (TransitionToLayout (EndRenderPass s) d (attachmentLayoutFor d.ty)).1 (some sTex)
            (if linear then linearSamplerHandle else pointSamplerHandle)).1 pipeline) d.framebuffer)
            (if d.ty == GSTextureType.DepthStencil then
            (if (d.discarded || dRect == (⟨0, 0, d.width, d.height⟩ : GSVector4i)) then
              m_utility_depth_render_pass_discard else m_utility_depth_render_pass_load)
          else if d.format == RT_FORMAT then
            (if (d.discarded || dRect == (⟨0, 0, d.width, d.height⟩ : GSVector4i)) then
              m_utility_color_render_pass_discard else m_utility_color_render_pass_load)
          else
            GetRenderPass (some d.format) none
              (if (d.discarded || dRect == (⟨0, 0, d.width, d.height⟩ : GSVector4i)) then
                VkAttachmentLoadOp.dontCare else VkAttachmentLoadOp.load))
            (⟨0, 0, d.width, d.height⟩ : GSVector4i)) (⟨0, 0, d.width, d.height⟩ : GSVector4i)) with
          | none => none
          | some s6 => some ((TransitionToLayout (EndRenderPass s6)
              (TransitionToLayout (EndRenderPass s) d (attachmentLayoutFor d.ty)).2 VkImageLayout.shaderReadOnly).1,
              ((SetUtilityTexture (TransitionToLayout (EndRenderPass s) d (attachmentLayoutFor d.ty)).1 (some sTex)
            (if linear then linearSamplerHandle else pointSamplerHandle)).2).getD sTex,
              some (TransitionToLayout (EndRenderPass s6)
                (TransitionToLayout (EndRenderPass s) d (attachmentLayoutFor d.ty)).2 VkImageLayout.shaderReadOnly).2)) := by
      simp only [DoStretchRect, Option.isNone_some, Bool.false_or, hcond, Bool.false_eq_true,
        if_false, hfb1, transitionToLayout_snd_ty, transitionToLayout_snd_format,
        transitionToLayout_snd_width, transitionToLayout_snd_height,
        transitionToLayout_snd_discarded]
      by_cases h1 : d.ty == GSTextureType.DepthStencil <;>
        by_cases h2 : d.format == RT_FORMAT <;>
          simp [h1, h2]
    rw [hred]
    set q := TransitionToLayout (EndRenderPass s) d (attachmentLayoutFor d.ty) with hqdef
    set p := SetUtilityTexture (TransitionToLayout (EndRenderPass s) d (attachmentLayoutFor d.ty)).1 (some sTex)
            (if linear then linearSamplerHandle else pointSamplerHandle) with hpdef
    set s3 := SetFramebuffer (SetPipeline p.1 pipeline) d.framebuffer with hs3def
    set rpX := (if d.ty == GSTextureType.DepthStencil then
            (if (d.discarded || dRect == (⟨0, 0, d.width, d.height⟩ : GSVector4i)) then
              m_utility_depth_render_pass_discard else m_utility_depth_render_pass_load)
          else if d.format == RT_FORMAT then
            (if (d.discarded || dRect == (⟨0, 0, d.width, d.height⟩ : GSVector4i)) then
              m_utility_color_render_pass_discard else m_utility_color_render_pass_load)
          else
            GetRenderPass (some d.format) none
              (if (d.discarded || dRect == (⟨0, 0, d.width, d.height⟩ : GSVector4i)) then
                VkAttachmentLoadOp.dontCare else VkAttachmentLoadOp.load)) with hrpX
    have hpassSP : (SetPipeline p.1 pipeline).current_render_pass = none := by
      rw [hpdef]
      simp
    have hv3 : s3.vtx_reserve = true :: vrest := by
      rw [hs3def, hpdef]
      simp [hv]
    have hd3 : s3.ds_alloc = true :: drest := by
      rw [hs3def, hpdef]
      simp [hd]
    have hpass3 : s3.current_render_pass = none := by
      rw [hs3def]
      rw [setFramebuffer_closed_pass _ _ hpassSP]
    have hs3cmds : s3.cmds = p.1.cmds := by
      rw [hs3def, setFramebuffer_closed_cmds _ _ hpassSP]
      simp
    have hs3fb : s3.current_framebuffer = d.framebuffer := by
      rw [hs3def]
      exact setFramebuffer_fb _ _
    obtain ⟨s6, hdraw, hrpbBD, hpreBD⟩ :=
      beginDrawEnd_props fuel s3 rpX ⟨0, 0, d.width, d.height⟩ vrest drest hv3 hd3 hpass3
    rw [hdraw]
    refine ⟨_, rpX, rfl, ?_, ?_, ?_⟩
    · rw [transitionToLayout_rpB, hrpbBD, hs3cmds, hs3fb]
      have hup : rpBoundaries p.1.cmds = rpBoundaries (EndRenderPass s).cmds := by
        rw [hpdef]
        rw [setUtilityTexture_rpB]
        rw [transitionToLayout_rpB]
      rw [hup, endRenderPass_cmds_shape, rpBoundaries_append]
      cases hIn : InRenderPass s <;>
        simp [rpBoundaries, isRPBoundary, List.append_assoc]
    · rw [hrpX]
      by_cases h1 : d.ty == GSTextureType.DepthStencil <;>
        by_cases h2 : d.format == RT_FORMAT <;>
          cases hw : (d.discarded || dRect == (⟨0, 0, d.width, d.height⟩ : GSVector4i)) <;>
            simp [h1, h2, hw, m_utility_depth_render_pass_discard,
              m_utility_depth_render_pass_load, m_utility_color_render_pass_discard,
              m_utility_color_render_pass_load, GetRenderPass]
    · intro hne
      have hbar : VKCmd.imageBarrier d.id 0 d.layout (attachmentLayoutFor d.ty) ∈ q.1.cmds := by
        rw [hqdef, transitionToLayout_fst_cmds]
        simp [hne]
      have hqp : q.1.cmds <+: p.1.cmds := by
        rw [hpdef, setUtilityTexture_cmds]
        rw [transitionToLayout_fst_cmds, transitionToLayout_fst_cmds,
          transitionToLayout_fst_cmds]
        exact ⟨_, rfl⟩
      have hq6 : q.1.cmds <+: (EndRenderPass s6).cmds := by
        refine List.IsPrefix.trans ?_ hpreBD
        rw [hs3cmds]
        exact hqp
      have hfinal : q.1.cmds <+: (TransitionToLayout (EndRenderPass s6) q.2
          VkImageLayout.shaderReadOnly).1.cmds := by
        refine hq6.trans ?_
        rw [transitionToLayout_fst_cmds]
        exact ⟨_, rfl⟩
      exact hfinal.subset hbar


/-- Witness for C9 at a concrete input: a 32x32 blit into a 64x64 render
target that is not the currently bound framebuffer, from the freshly
initialized device. -/
theorem doStretchRect_render_pass_policy_witness :
    (initialDeviceState.vtx_reserve = true :: [true, true, true]) ∧
    (initialDeviceState.ds_alloc = true :: [true, true, true]) ∧
    (∃ out rp,
      DoStretchRect 3 initialDeviceState
          ⟨10, GSTextureType.Texture, RT_FORMAT, 32, 32, false, 0, 13,
            VkImageLayout.shaderReadOnly⟩
          (some ⟨11, GSTextureType.RenderTarget, RT_FORMAT, 64, 64, false, 6, 12,
            VkImageLayout.shaderReadOnly⟩)
          ⟨0, 0, 32, 32⟩ 9 true = some out ∧
      rpBoundaries out.1.cmds = rpBoundaries initialDeviceState.cmds ++
        (if InRenderPass initialDeviceState then [VKCmd.endRenderPass] else []) ++
        [VKCmd.beginRenderPass rp 6 ⟨0, 0, 64, 64⟩ none, VKCmd.endRenderPass] ∧
      rp.loadOp = (if (false || (⟨0, 0, 32, 32⟩ : GSVector4i) ==
          (⟨0, 0, 64, 64⟩ : GSVector4i)) then VkAttachmentLoadOp.dontCare
        else VkAttachmentLoadOp.load) ∧
      (VkImageLayout.shaderReadOnly ≠ attachmentLayoutFor GSTextureType.RenderTarget →
        VKCmd.imageBarrier 11 0 VkImageLayout.shaderReadOnly
          (attachmentLayoutFor GSTextureType.RenderTarget) ∈ out.1.cmds)) := by
  refine ⟨rfl, rfl, ?_⟩
  exact (doStretchRect_render_pass_policy 3 initialDeviceState
    ⟨10, GSTextureType.Texture, RT_FORMAT, 32, 32, false, 0, 13,
      VkImageLayout.shaderReadOnly⟩
    (some ⟨11, GSTextureType.RenderTarget, RT_FORMAT, 64, 64, false, 6, 12,
      VkImageLayout.shaderReadOnly⟩)
    ⟨0, 0, 32, 32⟩ 9 true [true, true, true] [true, true, true] rfl rfl).2
    ⟨11, GSTextureType.RenderTarget, RT_FORMAT, 64, 64, false, 6, 12,
      VkImageLayout.shaderReadOnly⟩ rfl (by decide) (by decide)


/-! ## Linked-framebuffer bookkeeping lemmas (C7) -/

theorem lookupTex_mem (l : List (Nat × LinkedTex)) (i : Nat) (t : LinkedTex)
    (h : lookupTex l i = some t) : (i, t) ∈ l := by
  induction l with
  | nil => simp [lookupTex] at h
  | cons e rest ih =>
    obtain ⟨j, tj⟩ := e
    simp only [lookupTex] at h
    by_cases hji : j = i
    · subst hji
      simp at h
      subst h
      exact List.mem_cons_self _ _
    · rw [if_neg (by simpa using hji)] at h
      exact List.mem_cons_of_mem _ (ih h)

theorem lookupTex_updateTex_self (l : List (Nat × LinkedTex)) (i : Nat)
    (t0 t : LinkedTex) (h : lookupTex l i = some t0) :
    lookupTex (updateTex l i t) i = some t := by
  induction l with
  | nil => simp [lookupTex] at h
  | cons e rest ih =>
    obtain ⟨j, tj⟩ := e
    by_cases hji : j = i
    · subst hji
      simp [updateTex, lookupTex]
    · simp only [lookupTex] at h
      rw [if_neg (by simpa using hji)] at h
      simp [updateTex, lookupTex, hji, ih h]

theorem lookupTex_updateTex_other (l : List (Nat × LinkedTex)) (i j : Nat)
    (t : LinkedTex) (hij : j ≠ i) :
    lookupTex (updateTex l i t) j = lookupTex l j := by
  induction l with
  | nil => rfl
  | cons e rest ih =>
    obtain ⟨k, tk⟩ := e
    by_cases hki : k = i
    · subst hki
      simp [updateTex, lookupTex, Ne.symm hij]
    · by_cases hkj : k = j
      · subst hkj
        simp [updateTex, lookupTex, hki]
      · simp [updateTex, lookupTex, hki, hkj, ih]

theorem lookupTex_removeTex_self (l : List (Nat × LinkedTex)) (i : Nat) :
    lookupTex (removeTex l i) i = none := by
  induction l with
  | nil => rfl
  | cons e rest ih =>
    obtain ⟨j, tj⟩ := e
    by_cases hji : j = i
    · subst hji
      simp [removeTex, ih]
    · simp [removeTex, lookupTex, hji, ih]

theorem lookupTex_removeTex_other (l : List (Nat × LinkedTex)) (i j : Nat) (hij : j ≠ i) :
    lookupTex (removeTex l i) j = lookupTex l j := by
  induction l with
  | nil => rfl
  | cons e rest ih =>
    obtain ⟨k, tk⟩ := e
    by_cases hki : k = i
    · subst hki
      simp [removeTex, lookupTex, Ne.symm hij, ih]
    · by_cases hkj : k = j
      · subst hkj
        simp [removeTex, lookupTex, hki]
      · simp [removeTex, lookupTex, hki, hkj, ih]

theorem findLinked_none_forall (l : List (Nat × Handle)) (i : Nat)
    (h : findLinked l i = none) : ∀ e ∈ l, e.1 ≠ i := by
  induction l with
  | nil => intro e he; simp at he
  | cons e2 rest ih =>
    obtain ⟨p, fb⟩ := e2
    simp only [findLinked] at h
    by_cases hpi : p = i
    · subst hpi
      simp at h
    · rw [if_neg (by simpa using hpi)] at h
      intro e he
      rcases List.mem_cons.mp he with he | he
      · subst he; exact hpi
      · exact ih h e he

theorem removeFirstLink_append (l : List (Nat × Handle)) (i : Nat) (fb : Handle)
    (h : ∀ e ∈ l, e.1 ≠ i) : removeFirstLink (l ++ [(i, fb)]) i = l := by
  induction l with
  | nil => simp [removeFirstLink]
  | cons e rest ih =>
    obtain ⟨p, v⟩ := e
    have hp : p ≠ i := h (p, v) (List.mem_cons_self _ _)
    simp only [List.cons_append, removeFirstLink]
    rw [if_neg (by simpa using hp)]
    exact congrArg (List.cons (p, v)) (ih (fun e he => h e (List.mem_cons_of_mem _ he)))

theorem countH_append (h : Handle) (l1 l2 : List Handle) :
    countH h (l1 ++ l2) = countH h l1 + countH h l2 := by
  induction l1 with
  | nil => simp [countH]
  | cons x rest ih => simp [countH, ih]; omega

theorem countH_zero_of_forall (h : Handle) (l : List Handle) (hne : ∀ x ∈ l, x ≠ h) :
    countH h l = 0 := by
  induction l with
  | nil => rfl
  | cons x rest ih =>
    simp only [countH]
    rw [if_neg (hne x (List.mem_cons_self _ _)), ih (fun x hx => hne x (List.mem_cons_of_mem _ hx))]

theorem processLinks_deferred (selfId : Nat) (w : TexWorld) (entries : List (Nat × Handle)) :
    (processLinks selfId w entries).deferred = w.deferred ++ entries.map Prod.snd := by
  induction entries generalizing w with
  | nil => simp [processLinks]
  | cons e rest ih =>
    obtain ⟨o, fb⟩ := e
    simp only [processLinks]
    cases lookupTex w.texs o with
    | none => simp [ih, List.append_assoc]
    | some ot => simp [ih, List.append_assoc]

theorem processLinks_next_fb (selfId : Nat) (w : TexWorld) (entries : List (Nat × Handle)) :
    (processLinks selfId w entries).next_fb = w.next_fb := by
  induction entries generalizing w with
  | nil => rfl
  | cons e rest ih =>
    obtain ⟨o, fb⟩ := e
    simp only [processLinks]
    cases lookupTex w.texs o with
    | none => simp [ih]
    | some ot => simp [ih]

theorem processLinks_lookup_other (selfId : Nat) (w : TexWorld)
    (entries : List (Nat × Handle)) (x : Nat) (hx : ∀ e ∈ entries, e.1 ≠ x) :
    lookupTex (processLinks selfId w entries).texs x = lookupTex w.texs x := by
  induction entries generalizing w with
  | nil => rfl
  | cons e rest ih =>
    obtain ⟨o, fb⟩ := e
    have ho : o ≠ x := hx (o, fb) (List.mem_cons_self _ _)
    simp only [processLinks]
    cases hlo : lookupTex w.texs o with
    | none =>
      simp only []
      rw [ih _ (fun e he => hx e (List.mem_cons_of_mem _ he))]
    | some ot =>
      simp only []
      rw [ih _ (fun e he => hx e (List.mem_cons_of_mem _ he))]
      simp only []
      exact lookupTex_updateTex_other _ _ _ _ (fun he => ho he.symm)

theorem processLinks_lookup_target (selfId : Nat) (w : TexWorld)
    (l1 : List (Nat × Handle)) (x : Nat) (fb : Handle) (tx : LinkedTex)
    (hl1 : ∀ e ∈ l1, e.1 ≠ x) (hlx : lookupTex w.texs x = some tx) :
    lookupTex (processLinks selfId w (l1 ++ [(x, fb)])).texs x =
      some { tx with linked := removeFirstLink tx.linked selfId } := by
  induction l1 generalizing w with
  | nil =>
    simp only [List.nil_append, processLinks]
    rw [hlx]
    simp only [processLinks]
    exact lookupTex_updateTex_self _ _ _ _ hlx
  | cons e rest ih =>
    obtain ⟨o, fbo⟩ := e
    have ho : o ≠ x := hl1 (o, fbo) (List.mem_cons_self _ _)
    simp only [List.cons_append, processLinks]
    cases hlo : lookupTex w.texs o with
    | none =>
      simp only []
      exact ih _ (fun e he => hl1 e (List.mem_cons_of_mem _ he)) hlx
    | some ot =>
      simp only []
      refine ih _ (fun e he => hl1 e (List.mem_cons_of_mem _ he)) ?_
      simp only []
      rw [lookupTex_updateTex_other _ _ _ _ (fun he => ho he.symm)]
      exact hlx


theorem destroyTexture_deferred_count (w : TexWorld) (i : Nat) (fb : Handle)
    (t : LinkedTex) (hl : lookupTex w.texs i = some t)
    (hfbs : ∀ e ∈ t.linked, e.2 ≠ fb) (hof : t.framebuffer ≠ fb) :
    countH fb (destroyTexture w i).deferred = countH fb w.deferred := by
  simp only [destroyTexture, hl]
  have hmapz : countH fb (t.linked.map Prod.snd) = 0 := by
    refine countH_zero_of_forall fb _ ?_
    intro x hx
    obtain ⟨e, he, hex⟩ := List.mem_map.mp hx
    exact hex ▸ hfbs e he
  split <;> split <;>
    simp [processLinks_deferred, countH_append, countH, hmapz, hof]

theorem destroyTexture_props_linked (w : TexWorld) (x y : Nat) (tx ty2 : LinkedTex)
    (fb : Handle) (lx : List (Nat × Handle))
    (hxy : x ≠ y)
    (hlx : lookupTex w.texs x = some tx)
    (hly : lookupTex w.texs y = some ty2)
    (htx : tx.ty = GSTextureType.RenderTarget ∨ tx.ty = GSTextureType.DepthStencil)
    (hx_sh : tx.linked = lx ++ [(y, fb)])
    (hlx_ne_y : ∀ e ∈ lx, e.1 ≠ y) :
    lookupTex (destroyTexture w x).texs y =
      some { ty2 with linked := removeFirstLink ty2.linked x } ∧
    (destroyTexture w x).deferred = (w.deferred ++ (lx.map Prod.snd ++ [fb])) ++
      (if tx.framebuffer != 0 then [tx.framebuffer] else []) := by
  simp only [destroyTexture, hlx]
  have hbranch : (tx.ty == GSTextureType.RenderTarget ||
      tx.ty == GSTextureType.DepthStencil) = true := by
    rcases htx with h | h <;> simp [h]
  rw [if_pos hbranch]
  constructor
  · have hlook : lookupTex (processLinks x w tx.linked).texs y =
        some { ty2 with linked := removeFirstLink ty2.linked x } := by
      rw [hx_sh]
      exact processLinks_lookup_target x w lx y fb ty2 hlx_ne_y hly
    split
    · rw [lookupTex_removeTex_other _ _ _ (Ne.symm hxy)]
      exact hlook
    · rw [lookupTex_removeTex_other _ _ _ (Ne.symm hxy)]
      exact hlook
  · have hdef : (processLinks x w tx.linked).deferred =
        w.deferred ++ (lx.map Prod.snd ++ [fb]) := by
      rw [processLinks_deferred, hx_sh]
      simp
    split
    · next h => simp [hdef, h]
    · next h => simp [hdef, h]


/-- C7: for a render-target/depth-stencil pair linked by
`GetLinkedFramebuffer` (with a fresh framebuffer handle), the pair is
registered in both objects' linked lists; destroying either side removes the
reverse reference from the survivor's list and defer-destroys the shared
framebuffer exactly once, and destroying the survivor afterwards adds no
second destruction - in either destruction order. -/
theorem getLinkedFramebuffer_symmetric_teardown
    (w : TexWorld) (a b : Nat) (ta tb : LinkedTex)
    (hab : a ≠ b)
    (hla : lookupTex w.texs a = some ta) (hlb : lookupTex w.texs b = some tb)
    (htya : ta.ty = GSTextureType.RenderTarget)
    (htyb : tb.ty = GSTextureType.DepthStencil)
    (hnla : findLinked ta.linked b = none) (hnlb : findLinked tb.linked a = none)
    (hfresh : fbFresh (w.next_fb + 1) w) :
    ∃ w1, GetLinkedFramebuffer w a b = some (w.next_fb + 1, w1) ∧
      (∃ ta1, lookupTex w1.texs a = some ta1 ∧ (b, w.next_fb + 1) ∈ ta1.linked) ∧
      (∃ tb1, lookupTex w1.texs b = some tb1 ∧ (a, w.next_fb + 1) ∈ tb1.linked) ∧
      (countH (w.next_fb + 1) (destroyTexture w1 a).deferred = 1 ∧
        (∃ tb2, lookupTex (destroyTexture w1 a).texs b = some tb2 ∧
          ∀ e ∈ tb2.linked, e.1 ≠ a) ∧
        countH (w.next_fb + 1) (destroyTexture (destroyTexture w1 a) b).deferred = 1) ∧
      (countH (w.next_fb + 1) (destroyTexture w1 b).deferred = 1 ∧
        (∃ ta2, lookupTex (destroyTexture w1 b).texs a = some ta2 ∧
          ∀ e ∈ ta2.linked, e.1 ≠ b) ∧
        countH (w.next_fb + 1) (destroyTexture (destroyTexture w1 b) a).deferred = 1) := by
  have hmema := lookupTex_mem _ _ _ hla
  have hmemb := lookupTex_mem _ _ _ hlb
  have hfa := hfresh.1 (a, ta) hmema
  have hfb2 := hfresh.1 (b, tb) hmemb
  have hdef0 : countH (w.next_fb + 1) w.deferred = 0 :=
    countH_zero_of_forall _ _ hfresh.2
  have hlaneb : ∀ e ∈ ta.linked, e.1 ≠ b := findLinked_none_forall _ _ hnla
  have hlbnea : ∀ e ∈ tb.linked, e.1 ≠ a := findLinked_none_forall _ _ hnlb
  have hmapa : countH (w.next_fb + 1) (ta.linked.map Prod.snd) = 0 := by
    refine countH_zero_of_forall _ _ ?_
    intro x hx
    obtain ⟨e, he, hex⟩ := List.mem_map.mp hx
    exact hex ▸ hfa.1 e he
  have hmapb : countH (w.next_fb + 1) (tb.linked.map Prod.snd) = 0 := by
    refine countH_zero_of_forall _ _ ?_
    intro x hx
    obtain ⟨e, he, hex⟩ := List.mem_map.mp hx
    exact hex ▸ hfb2.1 e he
  set fb := w.next_fb + 1 with hfbdef
  set TA2 : LinkedTex := { ta with linked := ta.linked ++ [(b, fb)] } with hTA2
  set TB2 : LinkedTex := { tb with linked := tb.linked ++ [(a, fb)] } with hTB2
  set W1 : TexWorld :=
    { w with texs := updateTex (updateTex w.texs a TA2) b TB2, next_fb := fb } with hW1
  have hget : GetLinkedFramebuffer w a b = some (fb, W1) := by
    simp only [GetLinkedFramebuffer, hla, hlb, hnla]
  have hW1a : lookupTex W1.texs a = some TA2 := by
    rw [hW1]
    rw [lookupTex_updateTex_other _ _ _ _ hab]
    exact lookupTex_updateTex_self _ _ _ _ hla
  have hW1b : lookupTex W1.texs b = some TB2 := by
    rw [hW1]
    refine lookupTex_updateTex_self _ _ tb TB2 ?_
    rw [lookupTex_updateTex_other _ _ _ _ (Ne.symm hab)]
    exact hlb
  have hW1def : W1.deferred = w.deferred := rfl
  have hrma : removeFirstLink TB2.linked a = tb.linked :=
    removeFirstLink_append tb.linked a fb hlbnea
  have hrmb : removeFirstLink TA2.linked b = ta.linked :=
    removeFirstLink_append ta.linked b fb hlaneb
  -- destroying a first
  have hPa := destroyTexture_props_linked W1 a b TA2 TB2 fb ta.linked hab hW1a hW1b
    (Or.inl htya) rfl hlaneb
  have hcount_a1 : countH fb (destroyTexture W1 a).deferred = 1 := by
    rw [hPa.2, countH_append, countH_append, countH_append, hW1def, hdef0, hmapa]
    have h1 : countH fb [fb] = 1 := by simp [countH]
    have h2 : countH fb (if TA2.framebuffer != 0 then [TA2.framebuffer] else []) = 0 := by
      split
      · simp [countH, hfa.2]
      · rfl
    omega
  have hsurv_a : lookupTex (destroyTexture W1 a).texs b =
      some { TB2 with linked := tb.linked } := by
    rw [hPa.1, hrma]
  have hcount_a2 : countH fb (destroyTexture (destroyTexture W1 a) b).deferred = 1 := by
    rw [destroyTexture_deferred_count _ b fb { TB2 with linked := tb.linked } hsurv_a
      (by intro e he; exact hfb2.1 e he) hfb2.2]
    exact hcount_a1
  -- destroying b first
  have hPb := destroyTexture_props_linked W1 b a TB2 TA2 fb tb.linked (Ne.symm hab)
    hW1b hW1a (Or.inr htyb) rfl hlbnea
  have hcount_b1 : countH fb (destroyTexture W1 b).deferred = 1 := by
    rw [hPb.2, countH_append, countH_append, countH_append, hW1def, hdef0, hmapb]
    have h1 : countH fb [fb] = 1 := by simp [countH]
    have h2 : countH fb (if TB2.framebuffer != 0 then [TB2.framebuffer] else []) = 0 := by
      split
      · simp [countH, hfb2.2]
      · rfl
    omega
  have hsurv_b : lookupTex (destroyTexture W1 b).texs a =
      some { TA2 with linked := ta.linked } := by
    rw [hPb.1, hrmb]
  have hcount_b2 : countH fb (destroyTexture (destroyTexture W1 b) a).deferred = 1 := by
    rw [destroyTexture_deferred_count _ a fb { TA2 with linked := ta.linked } hsurv_b
      (by intro e he; exact hfa.1 e he) hfa.2]
    exact hcount_b1
  refine ⟨W1, hget, ⟨TA2, hW1a, ?_⟩, ⟨TB2, hW1b, ?_⟩,
    ⟨hcount_a1, ⟨_, hsurv_a, ?_⟩, hcount_a2⟩,
    ⟨hcount_b1, ⟨_, hsurv_b, ?_⟩, hcount_b2⟩⟩
  · rw [hTA2]
    simp
  · rw [hTB2]
    simp
  · intro e he
    exact hlbnea e he
  · intro e he
    exact hlaneb e he

/-- Witness for C7: a world with render target 1 and depth stencil 2, next
fresh framebuffer handle 31; the theorem links them and both teardown orders
defer exactly one destruction of handle 31. -/
theorem getLinkedFramebuffer_symmetric_teardown_witness :
    ∃ w1, GetLinkedFramebuffer
        { texs := [(1, { ty := GSTextureType.RenderTarget, linked := [], framebuffer := 20 }),
                   (2, { ty := GSTextureType.DepthStencil, linked := [], framebuffer := 21 })],
          deferred := [], next_fb := 30 } 1 2 = some (31, w1) ∧
      (∃ ta1, lookupTex w1.texs 1 = some ta1 ∧ (2, 31) ∈ ta1.linked) ∧
      (∃ tb1, lookupTex w1.texs 2 = some tb1 ∧ (1, 31) ∈ tb1.linked) ∧
      (countH 31 (destroyTexture w1 1).deferred = 1 ∧
        (∃ tb2, lookupTex (destroyTexture w1 1).texs 2 = some tb2 ∧
          ∀ e ∈ tb2.linked, e.1 ≠ 1) ∧
        countH 31 (destroyTexture (destroyTexture w1 1) 2).deferred = 1) ∧
      (countH 31 (destroyTexture w1 2).deferred = 1 ∧
        (∃ ta2, lookupTex (destroyTexture w1 2).texs 1 = some ta2 ∧
          ∀ e ∈ ta2.linked, e.1 ≠ 2) ∧
        countH 31 (destroyTexture (destroyTexture w1 2) 1).deferred = 1) :=
  getLinkedFramebuffer_symmetric_teardown
    { texs := [(1, { ty := GSTextureType.RenderTarget, linked := [], framebuffer := 20 }),
               (2, { ty := GSTextureType.DepthStencil, linked := [], framebuffer := 21 })],
      deferred := [], next_fb := 30 } 1 2
    { ty := GSTextureType.RenderTarget, linked := [], framebuffer := 20 }
    { ty := GSTextureType.DepthStencil, linked := [], framebuffer := 21 }
    (by decide) (by decide) (by decide) (by decide) (by decide)
    (by decide) (by decide) (by simp only [fbFresh]; decide)

end GSVK
